import Mathlib

/-!
PhxMath: matrix / quaternion transform subsystem.

A shallow embedding of the `Phx::Math` library (`src/Math/*.inl`).

* `float` is read as an exact number.  Every function that only adds, subtracts,
  multiplies, divides and compares is written once for an arbitrary linearly ordered
  field `F` (so it runs on `ℚ` and specialises to `ℝ`); the functions that call
  `sqrtf`, `sinf`, `cosf`, `acosf` are written over `ℝ`.
* `DebugAssert` expands to nothing (`PhxMath.h` defines it empty), so an assertion
  leaves no trace in the embedding: the code after it runs whatever the condition was.
* An `out` reference parameter becomes the returned value; the `return by value`
  overloads only wrap the `out` overloads and are not duplicated.
-/

namespace Phx.Math

/-! ## Data model -/

/-- The class `Vector3` (`PhxMathVector3.h`): three floats. -/
@[ext] structure Vector3 (F : Type) where
  X : F
  Y : F
  Z : F

/-- The class `Quaternion` (`PhxMathQuaternion.h`): four floats, `W` the scalar part. -/
@[ext] structure Quaternion (F : Type) where
  X : F
  Y : F
  Z : F
  W : F

/-- The class `Matrix4x4` (`PhxMathMatrix4x4.h`): sixteen floats, row major,
`Mrc` with `r` the row and `c` the column. -/
@[ext] structure Matrix4x4 (F : Type) where
  M11 : F
  M12 : F
  M13 : F
  M14 : F
  M21 : F
  M22 : F
  M23 : F
  M24 : F
  M31 : F
  M32 : F
  M33 : F
  M34 : F
  M41 : F
  M42 : F
  M43 : F
  M44 : F

/-- The class `Vector4` (`PhxMathVector4.h`): four floats. -/
@[ext] structure Vector4 (F : Type) where
  X : F
  Y : F
  Z : F
  W : F

/-- The class `Vector2` (`PhxMathVector2.h`): two floats. -/
@[ext] structure Vector2 (F : Type) where
  X : F
  Y : F

/-- The class `Rect` (`PhxMathRectangle.h`): origin `(X, Y)` at the bottom left, `Width` to
the right, `Height` upwards. -/
@[ext] structure Rect (F : Type) where
  X : F
  Y : F
  Width : F
  Height : F

section Scalar

variable {F : Type} [LinearOrderedField F]

/-- The constant `Float::Tolerance`, i.e. `PHX_FLT_TOLERANCE 0.000001f`. -/
def Float.Tolerance : F := 0.000001

/-- The scalar `NearlyZero(float f)`: `(f * f) < Float::Tolerance`. -/
def NearlyZero (f : F) : Bool :=
  decide (f * f < Float.Tolerance)

/-- The function `Abs(float f)`: `fabsf(f)`. -/
def Abs (f : F) : F := |f|

/-- The scalar `NearlyEqual(float lhs, float rhs)`: `NearlyZero(lhs - rhs)`. -/
def NearlyEqual (lhs rhs : F) : Bool :=
  NearlyZero (lhs - rhs)

end Scalar

/-! ## Constants whose definitions live in translation units outside `src/` -/

section Constants

variable {F : Type} [LinearOrderedField F]

/-- Modelled from the spec: the static constant `Matrix4x4::Zero` (declared in
`PhxMathMatrix4x4.h`, defined in a `.cpp` that is not part of the sources): the spec's
"Zero matrix", all sixteen entries `0`. -/
def Matrix4x4.Zero : Matrix4x4 F :=
  ⟨0, 0, 0, 0,
   0, 0, 0, 0,
   0, 0, 0, 0,
   0, 0, 0, 0⟩

/-- Modelled from the spec: the static constant `Matrix4x4::Identity` (declared in
`PhxMathMatrix4x4.h`, defined in a `.cpp` that is not part of the sources): the identity
matrix, whose fourth row is the spec's "identity's [0,0,0,1]". -/
def Matrix4x4.Identity : Matrix4x4 F :=
  ⟨1, 0, 0, 0,
   0, 1, 0, 0,
   0, 0, 1, 0,
   0, 0, 0, 1⟩

/-- Modelled from the spec: the static constant `Quaternion::Identity` (declared in
`PhxMathQuaternion.h`, defined in a `.cpp` that is not part of the sources): the
identity rotation `(0,0,0,1)`. -/
def Quaternion.Identity : Quaternion F :=
  ⟨0, 0, 0, 1⟩

/-- Modelled from the spec: the static constant `Vector3::One` (declared in
`PhxMathVector3.h`, defined in a `.cpp` that is not part of the sources): `(1,1,1)`,
as `Vector2::One ( 1.0f )` is in `PhxMathVector2.cpp`. -/
def Vector3.One : Vector3 F :=
  ⟨1, 1, 1⟩

/-- Modelled from the spec: the static constant `Rect::Empty` (declared in
`PhxMathRectangle.h`, defined in a `.cpp` that is not part of the sources): the spec's
"Empty is all-zero". -/
def Rect.Empty : Rect F :=
  ⟨0, 0, 0, 0⟩

end Constants

/-! ## Matrix4x4 algebra (`PhxMathMatrix4x4.inl`) -/

section MatrixAlgebra

variable {F : Type} [LinearOrderedField F]

/-- The function `Multiply(const Matrix4x4 & lhs, const Matrix4x4 & rhs, Matrix4x4 & out)`. -/
def Matrix4x4.Multiply (lhs rhs : Matrix4x4 F) : Matrix4x4 F :=
  let m11 := lhs.M11 * rhs.M11 + lhs.M12 * rhs.M21 + lhs.M13 * rhs.M31 + lhs.M14 * rhs.M41
  let m12 := lhs.M11 * rhs.M12 + lhs.M12 * rhs.M22 + lhs.M13 * rhs.M32 + lhs.M14 * rhs.M42
  let m13 := lhs.M11 * rhs.M13 + lhs.M12 * rhs.M23 + lhs.M13 * rhs.M33 + lhs.M14 * rhs.M43
  let m14 := lhs.M11 * rhs.M14 + lhs.M12 * rhs.M24 + lhs.M13 * rhs.M34 + lhs.M14 * rhs.M44
  let m21 := lhs.M21 * rhs.M11 + lhs.M22 * rhs.M21 + lhs.M23 * rhs.M31 + lhs.M24 * rhs.M41
  let m22 := lhs.M21 * rhs.M12 + lhs.M22 * rhs.M22 + lhs.M23 * rhs.M32 + lhs.M24 * rhs.M42
  let m23 := lhs.M21 * rhs.M13 + lhs.M22 * rhs.M23 + lhs.M23 * rhs.M33 + lhs.M24 * rhs.M43
  let m24 := lhs.M21 * rhs.M14 + lhs.M22 * rhs.M24 + lhs.M23 * rhs.M34 + lhs.M24 * rhs.M44
  let m31 := lhs.M31 * rhs.M11 + lhs.M32 * rhs.M21 + lhs.M33 * rhs.M31 + lhs.M34 * rhs.M41
  let m32 := lhs.M31 * rhs.M12 + lhs.M32 * rhs.M22 + lhs.M33 * rhs.M32 + lhs.M34 * rhs.M42
  let m33 := lhs.M31 * rhs.M13 + lhs.M32 * rhs.M23 + lhs.M33 * rhs.M33 + lhs.M34 * rhs.M43
  let m34 := lhs.M31 * rhs.M14 + lhs.M32 * rhs.M24 + lhs.M33 * rhs.M34 + lhs.M34 * rhs.M44
  let m41 := lhs.M41 * rhs.M11 + lhs.M42 * rhs.M21 + lhs.M43 * rhs.M31 + lhs.M44 * rhs.M41
  let m42 := lhs.M41 * rhs.M12 + lhs.M42 * rhs.M22 + lhs.M43 * rhs.M32 + lhs.M44 * rhs.M42
  let m43 := lhs.M41 * rhs.M13 + lhs.M42 * rhs.M23 + lhs.M43 * rhs.M33 + lhs.M44 * rhs.M43
  let m44 := lhs.M41 * rhs.M14 + lhs.M42 * rhs.M24 + lhs.M43 * rhs.M34 + lhs.M44 * rhs.M44
  ⟨m11, m12, m13, m14,
   m21, m22, m23, m24,
   m31, m32, m33, m34,
   m41, m42, m43, m44⟩

/-- The function `Determinant(const Matrix4x4 & m)`: Laplace expansion over the six shared
2x2 determinants `a..f` of the two lower rows. -/
def Matrix4x4.Determinant (m : Matrix4x4 F) : F :=
  let a := (m.M33 * m.M44) - (m.M34 * m.M43)
  let b := (m.M32 * m.M44) - (m.M34 * m.M42)
  let c := (m.M32 * m.M43) - (m.M33 * m.M42)
  let d := (m.M31 * m.M44) - (m.M34 * m.M41)
  let e := (m.M31 * m.M43) - (m.M33 * m.M41)
  let f := (m.M31 * m.M42) - (m.M32 * m.M41)
  (m.M11 * ((m.M22 * a) - (m.M23 * b) + (m.M24 * c)))
    - (m.M12 * ((m.M21 * a) - (m.M23 * d) + (m.M24 * e)))
    + (m.M13 * ((m.M21 * b) - (m.M22 * d) + (m.M24 * f)))
    - (m.M14 * ((m.M21 * c) - (m.M22 * e) + (m.M23 * f)))

/-- The function `Inverse(const Matrix4x4 & m, Matrix4x4 & out)`: twelve shared 2x2
determinants, the determinant `det` built from them, the `Zero` fallback when
`NearlyZero(det)`, otherwise the sixteen closed-form terms times `invDet`. -/
def Matrix4x4.Inverse (m : Matrix4x4 F) : Matrix4x4 F :=
  let s0 := (m.M11 * m.M22) - (m.M12 * m.M21)
  let s1 := (m.M11 * m.M23) - (m.M13 * m.M21)
  let s2 := (m.M11 * m.M24) - (m.M14 * m.M21)
  let s3 := (m.M12 * m.M23) - (m.M13 * m.M22)
  let s4 := (m.M12 * m.M24) - (m.M14 * m.M22)
  let s5 := (m.M13 * m.M24) - (m.M14 * m.M23)
  let c0 := (m.M31 * m.M42) - (m.M32 * m.M41)
  let c1 := (m.M31 * m.M43) - (m.M33 * m.M41)
  let c2 := (m.M31 * m.M44) - (m.M34 * m.M41)
  let c3 := (m.M32 * m.M43) - (m.M33 * m.M42)
  let c4 := (m.M32 * m.M44) - (m.M34 * m.M42)
  let c5 := (m.M33 * m.M44) - (m.M34 * m.M43)
  let det := (s0 * c5) - (s1 * c4) + (s2 * c3) + (s3 * c2) - (s4 * c1) + (s5 * c0)
  if NearlyZero det then
    Matrix4x4.Zero
  else
    let invDet := 1 / det
    let m11 := ((m.M22 * c5) - (m.M23 * c4) + (m.M24 * c3)) * invDet
    let m12 := (-(m.M12 * c5) + (m.M13 * c4) - (m.M14 * c3)) * invDet
    let m13 := ((m.M42 * s5) - (m.M43 * s4) + (m.M44 * s3)) * invDet
    let m14 := (-(m.M32 * s5) + (m.M33 * s4) - (m.M34 * s3)) * invDet
    let m21 := (-(m.M21 * c5) + (m.M23 * c2) - (m.M24 * c1)) * invDet
    let m22 := ((m.M11 * c5) - (m.M13 * c2) + (m.M14 * c1)) * invDet
    let m23 := (-(m.M41 * s5) + (m.M43 * s2) - (m.M44 * s1)) * invDet
    let m24 := ((m.M31 * s5) - (m.M33 * s2) + (m.M34 * s1)) * invDet
    let m31 := ((m.M21 * c4) - (m.M22 * c2) + (m.M24 * c0)) * invDet
    let m32 := (-(m.M11 * c4) + (m.M12 * c2) - (m.M14 * c0)) * invDet
    let m33 := ((m.M41 * s4) - (m.M42 * s2) + (m.M44 * s0)) * invDet
    let m34 := (-(m.M31 * s4) + (m.M32 * s2) - (m.M34 * s0)) * invDet
    let m41 := (-(m.M21 * c3) + (m.M22 * c1) - (m.M23 * c0)) * invDet
    let m42 := ((m.M11 * c3) - (m.M12 * c1) + (m.M13 * c0)) * invDet
    let m43 := (-(m.M41 * s3) + (m.M42 * s1) - (m.M43 * s0)) * invDet
    let m44 := ((m.M31 * s3) - (m.M32 * s1) + (m.M33 * s0)) * invDet
    ⟨m11, m12, m13, m14,
     m21, m22, m23, m24,
     m31, m32, m33, m34,
     m41, m42, m43, m44⟩

/-- The overload `Multiply(const Matrix4x4 & lhs, float rhs, Matrix4x4 & out)`:
every entry times `rhs`. -/
def Matrix4x4.MultiplyFloat (lhs : Matrix4x4 F) (rhs : F) : Matrix4x4 F :=
  ⟨lhs.M11 * rhs, lhs.M12 * rhs, lhs.M13 * rhs, lhs.M14 * rhs,
   lhs.M21 * rhs, lhs.M22 * rhs, lhs.M23 * rhs, lhs.M24 * rhs,
   lhs.M31 * rhs, lhs.M32 * rhs, lhs.M33 * rhs, lhs.M34 * rhs,
   lhs.M41 * rhs, lhs.M42 * rhs, lhs.M43 * rhs, lhs.M44 * rhs⟩

end MatrixAlgebra

/-! ## Matrix4x4 construction (`PhxMathMatrix4x4.inl`) -/

section MatrixConstruction

variable {F : Type} [LinearOrderedField F]

/-- The function `Matrix4x4::CreateFromQuaternion(const Quaternion & q, Matrix4x4 & out)`. -/
def Matrix4x4.CreateFromQuaternion (q : Quaternion F) : Matrix4x4 F :=
  let s : F := 2
  let x := s * q.X
  let y := s * q.Y
  let z := s * q.Z
  let xx := x * q.X
  let yy := y * q.Y
  let zz := z * q.Z
  let wx := x * q.W
  let wy := y * q.W
  let wz := z * q.W
  let xy := x * q.Y
  let xz := x * q.Z
  let yz := y * q.Z
  ⟨1 - yy - zz, xy + wz, xz - wy, 0,
   xy - wz, 1 - xx - zz, yz + wx, 0,
   xz + wy, yz - wx, 1 - xx - yy, 0,
   0, 0, 0, 1⟩

/-- The overload `Matrix4x4::CreateScale(float xScale, float yScale, float zScale, Matrix4x4 & out)`. -/
def Matrix4x4.CreateScale (xScale yScale zScale : F) : Matrix4x4 F :=
  ⟨xScale, 0, 0, 0,
   0, yScale, 0, 0,
   0, 0, zScale, 0,
   0, 0, 0, 1⟩

/-- The overload `Matrix4x4::CreateScale(const Vector3 & scale, Matrix4x4 & out)`. -/
def Matrix4x4.CreateScaleVector3 (scale : Vector3 F) : Matrix4x4 F :=
  Matrix4x4.CreateScale scale.X scale.Y scale.Z

/-- The function `Transform(const Matrix4x4 & m, const Quaternion & q, Matrix4x4 & out)`:
rotates `m` by `q`. -/
def Matrix4x4.Transform (m : Matrix4x4 F) (q : Quaternion F) : Matrix4x4 F :=
  let rhs := Matrix4x4.CreateFromQuaternion q
  m.Multiply rhs

/-- The function `Matrix4x4::CreateSRT(translation, rotation, scale, out)`: the scale matrix,
rotated, with the translation row then overwritten. -/
def Matrix4x4.CreateSRT (translation : Vector3 F) (rotation : Quaternion F)
    (scale : Vector3 F) : Matrix4x4 F :=
  let out := Matrix4x4.CreateScaleVector3 scale
  let out := out.Transform rotation
  { out with M41 := translation.X, M42 := translation.Y, M43 := translation.Z }

end MatrixConstruction

/-! ## Quaternion algebra (`PhxMathQuaternion.inl`) -/

section QuaternionAlgebra

variable {F : Type} [LinearOrderedField F]

/-- The function `Multiply(const Quaternion & lhs, const Quaternion & rhs, Quaternion & out)`. -/
def Quaternion.Multiply (lhs rhs : Quaternion F) : Quaternion F :=
  let x := (rhs.W * lhs.X) + (lhs.W * rhs.X) + (lhs.Y * rhs.Z) - (lhs.Z * rhs.Y)
  let y := (rhs.W * lhs.Y) + (lhs.W * rhs.Y) + (lhs.Z * rhs.X) - (lhs.X * rhs.Z)
  let z := (rhs.W * lhs.Z) + (lhs.W * rhs.Z) + (lhs.X * rhs.Y) - (lhs.Y * rhs.X)
  let w := (rhs.W * lhs.W) - (lhs.X * rhs.X) - (lhs.Y * rhs.Y) - (lhs.Z * rhs.Z)
  ⟨x, y, z, w⟩

/-- The function `LengthSquared(const Quaternion & q)`. -/
def Quaternion.LengthSquared (q : Quaternion F) : F :=
  (q.X * q.X) + (q.Y * q.Y) + (q.Z * q.Z) + (q.W * q.W)

/-- The function `Inverse(const Quaternion & q, Quaternion & out)`: the conjugate. -/
def Quaternion.Inverse (q : Quaternion F) : Quaternion F :=
  ⟨-q.X, -q.Y, -q.Z, q.W⟩

/-- The function `Negate(const Quaternion & q, Quaternion & out)`. -/
def Quaternion.Negate (q : Quaternion F) : Quaternion F :=
  ⟨-q.X, -q.Y, -q.Z, -q.W⟩

/-- The function `Dot(const Quaternion & lhs, const Quaternion & rhs)`. -/
def Quaternion.Dot (lhs rhs : Quaternion F) : F :=
  (lhs.X * rhs.X) + (lhs.Y * rhs.Y) + (lhs.Z * rhs.Z) + (lhs.W * rhs.W)

/-- The function `LengthSquared(const Vector3 & v)` (`PhxMathVector3.inl`). -/
def Vector3.LengthSquared (v : Vector3 F) : F :=
  (v.X * v.X) + (v.Y * v.Y) + (v.Z * v.Z)

end QuaternionAlgebra

/-! ## Vector operations and further matrix constructors -/

section VectorOps

variable {F : Type} [LinearOrderedField F]

/-- The function `Dot(const Vector3 & lhs, const Vector3 & rhs)` (`PhxMathVector3.inl`). -/
def Vector3.Dot (lhs rhs : Vector3 F) : F :=
  (lhs.X * rhs.X) + (lhs.Y * rhs.Y) + (lhs.Z * rhs.Z)

/-- The function `Subtract(const Vector3 & lhs, const Vector3 & rhs, Vector3 & out)`, which
`operator-=` calls. -/
def Vector3.Subtract (lhs rhs : Vector3 F) : Vector3 F :=
  ⟨lhs.X - rhs.X, lhs.Y - rhs.Y, lhs.Z - rhs.Z⟩

/-- The overload `Multiply(const Vector3 & lhs, float rhs, Vector3 & out)`, which
`operator*(const Vector3 &, float)` calls. -/
def Vector3.MultiplyFloat (lhs : Vector3 F) (rhs : F) : Vector3 F :=
  ⟨lhs.X * rhs, lhs.Y * rhs, lhs.Z * rhs⟩

/-- The overload `Transform(const Vector3 & v, const Matrix4x4 & m, Vector3 & out)`: the row
vector `(v, 1)` times `m`, first three components. -/
def Vector3.Transform (v : Vector3 F) (m : Matrix4x4 F) : Vector3 F :=
  let x := v.X * m.M11 + v.Y * m.M21 + v.Z * m.M31 + m.M41
  let y := v.X * m.M12 + v.Y * m.M22 + v.Z * m.M32 + m.M42
  let z := v.X * m.M13 + v.Y * m.M23 + v.Z * m.M33 + m.M43
  ⟨x, y, z⟩

/-- The overload `Transform(const Vector3 & v, const Quaternion & q, Vector3 & out)`: the
unrolled double cross product. -/
def Vector3.TransformQuaternion (v : Vector3 F) (q : Quaternion F) : Vector3 F :=
  let cX := 2 * ((q.Y * v.Z) - (q.Z * v.Y))
  let cY := 2 * ((q.Z * v.X) - (q.X * v.Z))
  let cZ := 2 * ((q.X * v.Y) - (q.Y * v.X))
  let x := v.X + q.W * cX + (q.Y * cZ) - (q.Z * cY)
  let y := v.Y + q.W * cY + (q.Z * cX) - (q.X * cZ)
  let z := v.Z + q.W * cZ + (q.X * cY) - (q.Y * cX)
  ⟨x, y, z⟩

/-- The function `Transform(const Vector4 & v, const Matrix4x4 & m, Vector4 & out)`
(`PhxMathVector4.inl`): the row vector `v` times `m`. -/
def Vector4.Transform (v : Vector4 F) (m : Matrix4x4 F) : Vector4 F :=
  let x := v.X * m.M11 + v.Y * m.M21 + v.Z * m.M31 + v.W * m.M41
  let y := v.X * m.M12 + v.Y * m.M22 + v.Z * m.M32 + v.W * m.M42
  let z := v.X * m.M13 + v.Y * m.M23 + v.Z * m.M33 + v.W * m.M43
  let w := v.X * m.M14 + v.Y * m.M24 + v.Z * m.M34 + v.W * m.M44
  ⟨x, y, z, w⟩

/-- The overload `Matrix4x4::CreateTranslation(float xPosition, float yPosition,
float zPosition, Matrix4x4 & out)`. -/
def Matrix4x4.CreateTranslation (xPosition yPosition zPosition : F) : Matrix4x4 F :=
  ⟨1, 0, 0, 0,
   0, 1, 0, 0,
   0, 0, 1, 0,
   xPosition, yPosition, zPosition, 1⟩

/-- The overload `Matrix4x4::CreateTranslation(const Vector3 & position, Matrix4x4 & out)`. -/
def Matrix4x4.CreateTranslationVector3 (position : Vector3 F) : Matrix4x4 F :=
  Matrix4x4.CreateTranslation position.X position.Y position.Z

/-- The overload `Matrix4x4::CreateOrthographic(float left, float right, float bottom,
float top, float nearDistance, float farDistance, Matrix4x4 & out)`. -/
def Matrix4x4.CreateOrthographic (left right bottom top nearDistance farDistance : F) :
    Matrix4x4 F :=
  let invNFDelta := 1 / (nearDistance - farDistance)
  ⟨2 / (right - left), 0, 0, 0,
   0, 2 / (top - bottom), 0, 0,
   0, 0, invNFDelta, 0,
   (left + right) / (left - right), (top + bottom) / (bottom - top),
     nearDistance * invNFDelta, 1⟩

/-- The function `Cross(const Vector3 & lhs, const Vector3 & rhs, Vector3 & out)`. -/
def Vector3.Cross (lhs rhs : Vector3 F) : Vector3 F :=
  let x := (lhs.Y * rhs.Z) - (lhs.Z * rhs.Y)
  let y := (lhs.Z * rhs.X) - (lhs.X * rhs.Z)
  let z := (lhs.X * rhs.Y) - (lhs.Y * rhs.X)
  ⟨x, y, z⟩

/-- The scalar `Lerp(float f1, float f2, float t)` (`PhxMathFloat.inl`). -/
def Lerp (f1 f2 t : F) : F :=
  f1 + ((f2 - f1) * t)

/-- The overload `Multiply(const Quaternion & lhs, float rhs, Quaternion & out)`. -/
def Quaternion.MultiplyFloat (lhs : Quaternion F) (rhs : F) : Quaternion F :=
  ⟨lhs.X * rhs, lhs.Y * rhs, lhs.Z * rhs, lhs.W * rhs⟩

/-- The statements of `Transpose(const Matrix4x4 & m, Matrix4x4 & out)`, in order, run on a
program state `σ`: `read` gives the present value of the object `m` refers to, `write`
updates the object `out` refers to, and `swap` is the local float. Each right-hand side is
read from the state as it is when its statement runs. -/
def Matrix4x4.TransposeStatements {σ : Type} (read : σ → Matrix4x4 F)
    (write : (Matrix4x4 F → Matrix4x4 F) → σ → σ) (s : σ) : σ :=
  let s := write (fun o => { o with M11 := (read s).M11 }) s
  let swap := (read s).M12
  let s := write (fun o => { o with M12 := (read s).M21 }) s
  let s := write (fun o => { o with M21 := swap }) s
  let swap := (read s).M13
  let s := write (fun o => { o with M13 := (read s).M31 }) s
  let s := write (fun o => { o with M31 := swap }) s
  let swap := (read s).M14
  let s := write (fun o => { o with M14 := (read s).M41 }) s
  let s := write (fun o => { o with M41 := swap }) s
  let s := write (fun o => { o with M22 := (read s).M22 }) s
  let swap := (read s).M32
  let s := write (fun o => { o with M32 := (read s).M23 }) s
  let s := write (fun o => { o with M23 := swap }) s
  let swap := (read s).M42
  let s := write (fun o => { o with M42 := (read s).M24 }) s
  let s := write (fun o => { o with M24 := swap }) s
  let s := write (fun o => { o with M33 := (read s).M33 }) s
  let swap := (read s).M43
  let s := write (fun o => { o with M43 := (read s).M34 }) s
  let s := write (fun o => { o with M34 := swap }) s
  let s := write (fun o => { o with M44 := (read s).M44 }) s
  s

/-- The function `Transpose(const Matrix4x4 & m, Matrix4x4 & out)` called with two distinct
objects: the state is the pair `(m, out)`, `out` starting with whatever it held. -/
def Matrix4x4.Transpose (m out : Matrix4x4 F) : Matrix4x4 F :=
  (Matrix4x4.TransposeStatements (fun s : Matrix4x4 F × Matrix4x4 F => s.1)
    (fun f s => (s.1, f s.2)) (m, out)).2

/-- The member `Matrix4x4::Transpose()`, which is `Math::Transpose(*this, *this)`: `m` and
`out` are the same object, so the state is that one matrix. -/
def Matrix4x4.TransposeMember (self : Matrix4x4 F) : Matrix4x4 F :=
  Matrix4x4.TransposeStatements (fun s : Matrix4x4 F => s) (fun f s => f s) self

/-- The function `Negate(const Vector3 & v, Vector3 & out)`, which the member
`Vector3::Negate()` calls on itself. -/
def Vector3.Negate (v : Vector3 F) : Vector3 F :=
  ⟨-v.X, -v.Y, -v.Z⟩

/-- The overload `Transform(const Vector2 & v, const Quaternion & q, Vector2 & out)`
(`PhxMathVector2.inl`). -/
def Vector2.TransformQuaternion (v : Vector2 F) (q : Quaternion F) : Vector2 F :=
  let cX := -2 * (q.Z * v.Y)
  let cY := 2 * (q.Z * v.X)
  let x := v.X + q.W * cX - (q.Z * cY)
  let y := v.Y + q.W * cY + (q.Z * cX)
  ⟨x, y⟩

/-- The member `Matrix4x4::GetForward()`. -/
def Matrix4x4.GetForward (self : Matrix4x4 F) : Vector3 F :=
  ⟨-self.M31, -self.M32, -self.M33⟩

/-- The member `Matrix4x4::GetTranslation()`. -/
def Matrix4x4.GetTranslation (self : Matrix4x4 F) : Vector3 F :=
  ⟨self.M41, self.M42, self.M43⟩

/-- The two-argument `Max(float f1, float f2)` (`PhxMathFloat.inl`). -/
def Max (f1 f2 : F) : F :=
  if f1 > f2 then f1 else f2

/-- The two-argument `Min(float f1, float f2)` (`PhxMathFloat.inl`). -/
def Min (f1 f2 : F) : F :=
  if f1 < f2 then f1 else f2

/-- The function `Intersects(const Rect & r1, const Rect & r2)` (`PhxMathRectangle.inl`):
the negation of the four separation tests. -/
def Rect.Intersects (r1 r2 : Rect F) : Bool :=
  !(decide (r1.X > (r2.X + r2.Width)) ||
    decide ((r1.X + r1.Width) < r2.X) ||
    decide (r1.Y > (r2.Y + r2.Height)) ||
    decide ((r1.Y + r1.Height) < r2.Y))

/-- The function `Intersect(const Rect & r1, const Rect & r2, Rect & out)`
(`PhxMathRectangle.inl`). -/
def Rect.Intersect (r1 r2 : Rect F) : Rect F :=
  if r1.Intersects r2 then
    let left := Max r1.X r2.X
    let right := Min (r1.X + r1.Width) (r2.X + r2.Width)
    let top := Min (r1.Y + r1.Height) (r2.Y + r2.Height)
    let bottom := Max r1.Y r2.Y
    ⟨left, bottom, right - left, top - bottom⟩
  else
    Rect.Empty

end VectorOps

/-! ## The functions that call the C math library

`sqrtf`, `sinf`, `cosf`, `asinf`, `acosf` are read as the real functions, and the
constants of `namespace Trig` (`Pi ( 3.14159265f )`, `PiOverTwo ( 1.57079633f )`) as the
real numbers they round. -/

noncomputable section Transcendental

/-- The constant `Trig::Pi`. -/
def Trig.Pi : ℝ := Real.pi

/-- The constant `Trig::PiOverTwo`. -/
def Trig.PiOverTwo : ℝ := Real.pi / 2

/-- The function `Sqrt(float f)`: `sqrtf(f)` (the assertion `f >= 0` is a no-op). -/
def Sqrt (f : ℝ) : ℝ := Real.sqrt f

/-- The function `Sin(float radians)`. -/
def Sin (radians : ℝ) : ℝ := Real.sin radians

/-- The function `Cos(float radians)`. -/
def Cos (radians : ℝ) : ℝ := Real.cos radians

/-- The function `SinCos(float radians, float * pOutSin, float * pOutCos)`: the pair
`(*pOutSin, *pOutCos)`. -/
def SinCos (radians : ℝ) : ℝ × ℝ := (Real.sin radians, Real.cos radians)

/-- The function `ASin(float f)`: `asinf` strictly inside `(-1, 1)`, `Trig::Pi` for
`f <= -1`, `0` for `f >= 1`. -/
def ASin (f : ℝ) : ℝ :=
  if f < 1 then
    if f > -1 then Real.arcsin f
    else Trig.Pi
  else 0

/-- The function `ACos(float f)`: `acosf` strictly inside `(-1, 1)`, `-Trig::PiOverTwo` for
`f <= -1`, `Trig::PiOverTwo` for `f >= 1`. -/
def ACos (f : ℝ) : ℝ :=
  if f < 1 then
    if f > -1 then Real.arccos f
    else -Trig.PiOverTwo
  else Trig.PiOverTwo

/-- The function `Quaternion::CreateFromMatrix(const Matrix4x4 & m, Quaternion & out)`:
four branches on the trace and the largest diagonal entry. -/
def Quaternion.CreateFromMatrix (m : Matrix4x4 ℝ) : Quaternion ℝ :=
  let trace := m.M11 + m.M22 + m.M33
  if trace ≥ 0 then
    let s := Sqrt (trace + 1)
    let outW := s * 0.5
    let s := 0.5 / s
    ⟨(m.M23 - m.M32) * s, (m.M31 - m.M13) * s, (m.M12 - m.M21) * s, outW⟩
  else if m.M11 > m.M22 ∧ m.M11 > m.M33 then
    let s := Sqrt (m.M11 - m.M22 - m.M33 + 1)
    let outX := s * 0.5
    let s := 0.5 / s
    ⟨outX, (m.M12 + m.M21) * s, (m.M13 + m.M31) * s, (m.M23 - m.M32) * s⟩
  else if m.M22 > m.M33 then
    let s := Sqrt (m.M22 - m.M11 - m.M33 + 1)
    let outY := s * 0.5
    let s := 0.5 / s
    ⟨(m.M12 + m.M21) * s, outY, (m.M23 + m.M32) * s, (m.M31 - m.M13) * s⟩
  else
    let s := Sqrt (m.M33 - m.M11 - m.M22 + 1)
    let outZ := s * 0.5
    let s := 0.5 / s
    ⟨(m.M13 + m.M31) * s, (m.M23 + m.M32) * s, outZ, (m.M12 - m.M21) * s⟩

/-- The function `Quaternion::CreateFromAxisAngle(const Vector3 & axis, float radians,
Quaternion & out)`. -/
def Quaternion.CreateFromAxisAngle (axis : Vector3 ℝ) (radians : ℝ) : Quaternion ℝ :=
  let sc := SinCos (radians * 0.5)
  let s := sc.1
  let c := sc.2
  ⟨axis.X * s, axis.Y * s, axis.Z * s, c⟩

/-- The function `Slerp(const Quaternion & q1, const Quaternion & q2, float weight,
Quaternion & out)`. -/
def Quaternion.Slerp (q1 q2 : Quaternion ℝ) (weight : ℝ) : Quaternion ℝ :=
  let cosTheta := q1.Dot q2
  let theta := ACos cosTheta
  if NearlyZero theta then
    q1
  else
    let invSinTheta := 1 / Sin theta
    let tAngle := weight * theta
    let t1 := Sin (theta - tAngle) * invSinTheta
    let t2 := Sin tAngle * invSinTheta
    ⟨t1 * q1.X + t2 * q2.X,
     t1 * q1.Y + t2 * q2.Y,
     t1 * q1.Z + t2 * q2.Z,
     t1 * q1.W + t2 * q2.W⟩

/-- What a call `Decompose(m, outScale, outOrientation, outTranslation)` leaves behind:
the returned flag and the three output references. -/
structure DecomposeResult where
  success : Bool
  outScale : Vector3 ℝ
  outOrientation : Quaternion ℝ
  outTranslation : Vector3 ℝ

/-- The function `Decompose(const Matrix4x4 & m, Vector3 & outScale,
Quaternion & outOrientation, Vector3 & outTranslation)`. -/
def Matrix4x4.Decompose (m : Matrix4x4 ℝ) : DecomposeResult :=
  let outTranslation : Vector3 ℝ := ⟨m.M41, m.M42, m.M43⟩
  let x := m.M11 * m.M11 + m.M12 * m.M12 + m.M13 * m.M13
  let y := m.M21 * m.M21 + m.M22 * m.M22 + m.M23 * m.M23
  let z := m.M31 * m.M31 + m.M32 * m.M32 + m.M33 * m.M33
  if NearlyZero x || NearlyZero y || NearlyZero z then
    ⟨false, Vector3.One, Quaternion.Identity, outTranslation⟩
  else
    let outScale : Vector3 ℝ := ⟨Sqrt x, Sqrt y, Sqrt z⟩
    let invX := 1 / outScale.X
    let invY := 1 / outScale.Y
    let invZ := 1 / outScale.Z
    let r : Matrix4x4 ℝ :=
      ⟨m.M11 * invX, m.M12 * invX, m.M13 * invX, 0,
       m.M21 * invY, m.M22 * invY, m.M23 * invY, 0,
       m.M31 * invZ, m.M32 * invZ, m.M33 * invZ, 0,
       0, 0, 0, 1⟩
    ⟨true, outScale, Quaternion.CreateFromMatrix r, outTranslation⟩

/-- The function `Tan(float radians)`: `tanf(radians)`. -/
def Tan (radians : ℝ) : ℝ := Real.tan radians

/-- The function `InvSqrt(float f)`: `1.0f / sqrtf(f)` (the assertion `f > 0` is a no-op). -/
def InvSqrt (f : ℝ) : ℝ := 1 / Real.sqrt f

/-- The function `Normalize(const Vector3 & v, Vector3 & out)`, which the member
`Vector3::Normalize()` calls on itself. -/
def Vector3.Normalize (v : Vector3 ℝ) : Vector3 ℝ :=
  let lengthSquared := v.LengthSquared
  v.MultiplyFloat (InvSqrt lengthSquared)

/-- The function `Matrix4x4::CreatePerspective(float fieldOfView, float aspectRatio,
float nearDistance, float farDistance, Matrix4x4 & out)`. -/
def Matrix4x4.CreatePerspective (fieldOfView aspectRatio nearDistance farDistance : ℝ) :
    Matrix4x4 ℝ :=
  let yScale := 1 / Tan (fieldOfView * 0.5)
  let xScale := yScale / aspectRatio
  let invNFDelta := 1 / (nearDistance - farDistance)
  ⟨xScale, 0, 0, 0,
   0, yScale, 0, 0,
   0, 0, farDistance * invNFDelta, -1,
   0, 0, nearDistance * farDistance * invNFDelta, 0⟩

/-- The function `Matrix4x4::CreateRotationX(float radians, Matrix4x4 & out)`. -/
def Matrix4x4.CreateRotationX (radians : ℝ) : Matrix4x4 ℝ :=
  let sc := SinCos radians
  let sinTheta := sc.1
  let cosTheta := sc.2
  ⟨1, 0, 0, 0,
   0, cosTheta, sinTheta, 0,
   0, -sinTheta, cosTheta, 0,
   0, 0, 0, 1⟩

/-- The function `Matrix4x4::CreateRotationY(float radians, Matrix4x4 & out)`. -/
def Matrix4x4.CreateRotationY (radians : ℝ) : Matrix4x4 ℝ :=
  let sc := SinCos radians
  let sinTheta := sc.1
  let cosTheta := sc.2
  ⟨cosTheta, 0, -sinTheta, 0,
   0, 1, 0, 0,
   sinTheta, 0, cosTheta, 0,
   0, 0, 0, 1⟩

/-- The function `Matrix4x4::CreateRotationZ(float radians, Matrix4x4 & out)`. -/
def Matrix4x4.CreateRotationZ (radians : ℝ) : Matrix4x4 ℝ :=
  let sc := SinCos radians
  let sinTheta := sc.1
  let cosTheta := sc.2
  ⟨cosTheta, sinTheta, 0, 0,
   -sinTheta, cosTheta, 0, 0,
   0, 0, 1, 0,
   0, 0, 0, 1⟩

/-- The function `Matrix4x4::CreateFromYawPitchRoll(float yaw, float pitch, float roll,
Matrix4x4 & out)`. -/
def Matrix4x4.CreateFromYawPitchRoll (yaw pitch roll : ℝ) : Matrix4x4 ℝ :=
  let scY := SinCos yaw
  let sinY := scY.1
  let cosY := scY.2
  let scX := SinCos pitch
  let sinX := scX.1
  let cosX := scX.2
  let scZ := SinCos roll
  let sinZ := scZ.1
  let cosZ := scZ.2
  ⟨cosY * cosZ - sinY * sinX * sinZ, cosY * sinZ + sinY * sinX * cosZ, -sinY * cosX, 0,
   cosX * -sinZ, cosX * cosZ, sinX, 0,
   sinY * cosZ + cosY * sinX * sinZ, sinY * sinZ - cosY * sinX * cosZ, cosY * cosX, 0,
   0, 0, 0, 1⟩

/-- The function `Orthonormalize(const Matrix4x4 & m, Matrix4x4 & out)`: the first row
normalized, the second row less its projection on the new first row, normalized, the third
row less its projection on the new second row, normalized. -/
def Matrix4x4.Orthonormalize (m : Matrix4x4 ℝ) : Matrix4x4 ℝ :=
  let basis1 : Vector3 ℝ := ⟨m.M11, m.M12, m.M13⟩
  let basis2 : Vector3 ℝ := ⟨m.M21, m.M22, m.M23⟩
  let basis3 : Vector3 ℝ := ⟨m.M31, m.M32, m.M33⟩
  let basis1 := basis1.Normalize
  let basis2 := basis2.Subtract (basis1.MultiplyFloat (basis2.Dot basis1))
  let basis2 := basis2.Normalize
  let basis3 := basis3.Subtract (basis2.MultiplyFloat (basis3.Dot basis2))
  let basis3 := basis3.Normalize
  ⟨basis1.X, basis1.Y, basis1.Z, 0,
   basis2.X, basis2.Y, basis2.Z, 0,
   basis3.X, basis3.Y, basis3.Z, 0,
   0, 0, 0, 1⟩

/-- The argument `Quaternion::CreateFromMatrix` hands to `Sqrt` in the branch that its
trace and diagonal tests select (the same tests, in the same order, as
`Quaternion.CreateFromMatrix`). -/
def Quaternion.CreateFromMatrixSqrtArg (m : Matrix4x4 ℝ) : ℝ :=
  let trace := m.M11 + m.M22 + m.M33
  if trace ≥ 0 then
    trace + 1
  else if m.M11 > m.M22 ∧ m.M11 > m.M33 then
    m.M11 - m.M22 - m.M33 + 1
  else if m.M22 > m.M33 then
    m.M22 - m.M11 - m.M33 + 1
  else
    m.M33 - m.M11 - m.M22 + 1

/-- The function `ATan2(float y, float x)`: `0` at the origin, otherwise `atan2f(y, x)`,
read as the argument of the complex number `x + i y`, which lies in `(-pi, pi]`. -/
def ATan2 (y x : ℝ) : ℝ :=
  if y = 0 ∧ x = 0 then 0
  else Complex.arg ⟨x, y⟩

/-- The function `Length(const Vector3 & v)`. -/
def Vector3.Length (v : Vector3 ℝ) : ℝ := Sqrt v.LengthSquared

/-- The function `EulerAngles(const Matrix4x4 & m)`: the vector `(pitch, yaw, roll)`. -/
def Matrix4x4.EulerAngles (m : Matrix4x4 ℝ) : Vector3 ℝ :=
  if NearlyEqual m.M23 1 then
    ⟨Trig.PiOverTwo, ATan2 m.M12 m.M11, 0⟩
  else if NearlyEqual m.M23 (-1) then
    ⟨-Trig.PiOverTwo, -ATan2 m.M12 m.M11, 0⟩
  else
    ⟨ASin m.M23, ATan2 (-m.M13) m.M33, ATan2 (-m.M21) m.M22⟩

/-- The function `EulerAngles(const Quaternion & q)`. The locals `M11 .. M33` of the source
are written `m11 .. m33`. -/
def Quaternion.EulerAngles (q : Quaternion ℝ) : Vector3 ℝ :=
  let s : ℝ := 2
  let x := s * q.X
  let y := s * q.Y
  let z := s * q.Z
  let m23 := y * q.Z + x * q.W
  if NearlyEqual m23 1 then
    let m12 := x * q.Y + z * q.W
    let m11 := 1 - y * q.Y - z * q.Z
    ⟨Trig.PiOverTwo, ATan2 m12 m11, 0⟩
  else if NearlyEqual m23 (-1) then
    let m12 := x * q.Y + z * q.W
    let m11 := 1 - y * q.Y - z * q.Z
    ⟨-Trig.PiOverTwo, -ATan2 m12 m11, 0⟩
  else
    let xx := x * q.X
    let m13 := x * q.Z - y * q.W
    let m33 := 1 - xx - y * q.Y
    let m21 := x * q.Y - z * q.W
    let m22 := 1 - xx - z * q.Z
    ⟨ASin m23, ATan2 (-m13) m33, ATan2 (-m21) m22⟩

/-- The function `Normalize(const Quaternion & q, Quaternion & out)`. -/
def Quaternion.Normalize (q : Quaternion ℝ) : Quaternion ℝ :=
  let lengthSquared := q.LengthSquared
  q.MultiplyFloat (InvSqrt lengthSquared)

/-- The function `Lerp(const Quaternion & q1, const Quaternion & q2, float weight,
Quaternion & out)`. -/
def Quaternion.Lerp (q1 q2 : Quaternion ℝ) (weight : ℝ) : Quaternion ℝ :=
  let out : Quaternion ℝ :=
    ⟨Phx.Math.Lerp q1.X q2.X weight, Phx.Math.Lerp q1.Y q2.Y weight,
     Phx.Math.Lerp q1.Z q2.Z weight, Phx.Math.Lerp q1.W q2.W weight⟩
  out.Normalize

/-- The function `Nlerp(const Quaternion & q1, const Quaternion & q2, float weight,
Quaternion & out)`. -/
def Quaternion.Nlerp (q1 q2 : Quaternion ℝ) (weight : ℝ) : Quaternion ℝ :=
  let cosTheta := q1.Dot q2
  let f := 1 - (0.7878088 * cosTheta)
  let k := 0.5069269 * f * f
  let t := weight
  let tt := t * t
  let ttt := tt * t
  let tPrime := (2 * k * ttt) - (3 * k * tt) + ((1 + k) * t)
  let out : Quaternion ℝ :=
    ⟨Phx.Math.Lerp q1.X q2.X tPrime, Phx.Math.Lerp q1.Y q2.Y tPrime,
     Phx.Math.Lerp q1.Z q2.Z tPrime, Phx.Math.Lerp q1.W q2.W tPrime⟩
  out.Normalize

/-- The function `Matrix4x4::CreateView(const Vector3 & position, const Vector3 & target,
const Vector3 & up, Matrix4x4 & out)`. -/
def Matrix4x4.CreateView (position target up : Vector3 ℝ) : Matrix4x4 ℝ :=
  let zAxis := position.Subtract target
  let zAxis := zAxis.Normalize
  let xAxis := up.Cross zAxis
  let xAxis := xAxis.Normalize
  let yAxis := zAxis.Cross xAxis
  let yAxis := yAxis.Normalize
  ⟨xAxis.X, yAxis.X, zAxis.X, 0,
   xAxis.Y, yAxis.Y, zAxis.Y, 0,
   xAxis.Z, yAxis.Z, zAxis.Z, 0,
   -xAxis.Dot position, -yAxis.Dot position, -zAxis.Dot position, 1⟩

/-- The function `Matrix4x4::CreateWorld(const Vector3 & position, const Vector3 & forward,
const Vector3 & up, Matrix4x4 & out)`. -/
def Matrix4x4.CreateWorld (position forward up : Vector3 ℝ) : Matrix4x4 ℝ :=
  let zAxis := forward.Normalize
  let zAxis := zAxis.Negate
  let xAxis := up.Cross zAxis
  let xAxis := xAxis.Normalize
  let yAxis := zAxis.Cross xAxis
  let yAxis := yAxis.Normalize
  ⟨xAxis.X, xAxis.Y, xAxis.Z, 0,
   yAxis.X, yAxis.Y, yAxis.Z, 0,
   zAxis.X, zAxis.Y, zAxis.Z, 0,
   position.X, position.Y, position.Z, 1⟩

/-- The function `Matrix4x4::CreateFromAxisAngle(const Vector3 & axis, float radians,
Matrix4x4 & out)`. -/
def Matrix4x4.CreateFromAxisAngle (axis : Vector3 ℝ) (radians : ℝ) : Matrix4x4 ℝ :=
  let sc := SinCos radians
  let s := sc.1
  let c := sc.2
  let t := 1 - c
  let xy := axis.X * axis.Y
  let xz := axis.X * axis.Z
  let yz := axis.Y * axis.Z
  ⟨t * axis.X * axis.X + c, t * xy + s * axis.Z, t * xz - s * axis.Y, 0,
   t * xy - s * axis.Z, t * axis.Y * axis.Y + c, t * yz + s * axis.X, 0,
   t * xz + s * axis.Y, t * yz - s * axis.X, t * axis.Z * axis.Z + c, 0,
   0, 0, 0, 1⟩

/-- The function `Quaternion::CreateRotationX(float radians, Quaternion & out)`. -/
def Quaternion.CreateRotationX (radians : ℝ) : Quaternion ℝ :=
  let sc := SinCos (radians * 0.5)
  let s := sc.1
  let c := sc.2
  ⟨s, 0, 0, c⟩

/-- The function `Quaternion::CreateRotationY(float radians, Quaternion & out)`. -/
def Quaternion.CreateRotationY (radians : ℝ) : Quaternion ℝ :=
  let sc := SinCos (radians * 0.5)
  let s := sc.1
  let c := sc.2
  ⟨0, s, 0, c⟩

/-- The function `Quaternion::CreateRotationZ(float radians, Quaternion & out)`. -/
def Quaternion.CreateRotationZ (radians : ℝ) : Quaternion ℝ :=
  let sc := SinCos (radians * 0.5)
  let s := sc.1
  let c := sc.2
  ⟨0, 0, s, c⟩

/-- The function `Quaternion::CreateFromYawPitchRoll(float yaw, float pitch, float roll,
Quaternion & out)`. -/
def Quaternion.CreateFromYawPitchRoll (yaw pitch roll : ℝ) : Quaternion ℝ :=
  let scY := SinCos (yaw * 0.5)
  let sY := scY.1
  let cY := scY.2
  let scX := SinCos (pitch * 0.5)
  let sX := scX.1
  let cX := scX.2
  let scZ := SinCos (roll * 0.5)
  let sZ := scZ.1
  let cZ := scZ.2
  ⟨(cZ * sX * cY) - (sZ * cX * sY),
   (sZ * sX * cY) + (cZ * cX * sY),
   (cZ * sX * sY) + (sZ * cX * cY),
   (cZ * cX * cY) - (sZ * sX * sY)⟩

end Transcendental

/-! ## Reference notions the claims are compared with -/

section Reference

variable {F : Type} [LinearOrderedField F]

/-- The sixteen floats as a mathematical matrix: entry `(r, c)` is `Mrc`. -/
def Matrix4x4.toMatrix (m : Matrix4x4 F) : Matrix (Fin 4) (Fin 4) F :=
  !![m.M11, m.M12, m.M13, m.M14;
     m.M21, m.M22, m.M23, m.M24;
     m.M31, m.M32, m.M33, m.M34;
     m.M41, m.M42, m.M43, m.M44]

/-- A mathematical 4x4 matrix stored as a `Matrix4x4`. -/
def Matrix4x4.ofMatrix (A : Matrix (Fin 4) (Fin 4) F) : Matrix4x4 F :=
  ⟨A 0 0, A 0 1, A 0 2, A 0 3,
   A 1 0, A 1 1, A 1 2, A 1 3,
   A 2 0, A 2 1, A 2 2, A 2 3,
   A 3 0, A 3 1, A 3 2, A 3 3⟩

/-- The adjugate in the spec's sense ("adjugate divided by det"): the classical adjugate
(transposed cofactor matrix) of the matrix, not the code's closed-form terms. -/
def Matrix4x4.specAdjugate (m : Matrix4x4 F) : Matrix4x4 F :=
  Matrix4x4.ofMatrix m.toMatrix.adjugate

/-- The rotation of `v` by `q` in the textbook form `q * v * conj(q)` (Hamilton products,
`v` read as a quaternion with zero scalar part), written out in components. -/
def Vector3.specRotate (v : Vector3 F) (q : Quaternion F) : Vector3 F :=
  let d := q.X * v.X + q.Y * v.Y + q.Z * v.Z
  let n := q.W * q.W - (q.X * q.X + q.Y * q.Y + q.Z * q.Z)
  ⟨n * v.X + 2 * d * q.X + 2 * q.W * (q.Y * v.Z - q.Z * v.Y),
   n * v.Y + 2 * d * q.Y + 2 * q.W * (q.Z * v.X - q.X * v.Z),
   n * v.Z + 2 * d * q.Z + 2 * q.W * (q.X * v.Y - q.Y * v.X)⟩

/-- The row vector `(X, Y, Z, W)` as a function on `Fin 4`. -/
def Vector4.toVec (v : Vector4 F) : Fin 4 → F :=
  ![v.X, v.Y, v.Z, v.W]

/-- The upper-left 3x3 block as a mathematical matrix: row `i` is the `i`-th basis row. -/
def Matrix4x4.toMatrix3 (m : Matrix4x4 F) : Matrix (Fin 3) (Fin 3) F :=
  !![m.M11, m.M12, m.M13;
     m.M21, m.M22, m.M23;
     m.M31, m.M32, m.M33]

/-- The determinant of the 3x3 matrix whose rows are `a`, `b`, `c`. -/
def Vector3.det3 (a b c : Vector3 F) : F :=
  a.X * (b.Y * c.Z - b.Z * c.Y) - a.Y * (b.X * c.Z - b.Z * c.X)
    + a.Z * (b.X * c.Y - b.Y * c.X)

/-- The rotation matrix of `q` in its homogeneous textbook form, with the diagonal written
`w^2 + x^2 - y^2 - z^2` instead of `1 - 2y^2 - 2z^2`; it agrees with
`Matrix4x4.CreateFromQuaternion` on unit quaternions and is multiplicative on all of them. -/
def Matrix4x4.specFromQuaternion (q : Quaternion F) : Matrix4x4 F :=
  ⟨q.W * q.W + q.X * q.X - q.Y * q.Y - q.Z * q.Z, 2 * (q.X * q.Y + q.W * q.Z),
     2 * (q.X * q.Z - q.W * q.Y), 0,
   2 * (q.X * q.Y - q.W * q.Z), q.W * q.W - q.X * q.X + q.Y * q.Y - q.Z * q.Z,
     2 * (q.Y * q.Z + q.W * q.X), 0,
   2 * (q.X * q.Z + q.W * q.Y), 2 * (q.Y * q.Z - q.W * q.X),
     q.W * q.W - q.X * q.X - q.Y * q.Y + q.Z * q.Z, 0,
   0, 0, 0, q.W * q.W + q.X * q.X + q.Y * q.Y + q.Z * q.Z⟩

end Reference

/-! ## Shared lemmas -/

section Lemmas

set_option linter.unusedSectionVars false

variable {F : Type} [LinearOrderedField F]

theorem Float.Tolerance_pos : (0 : F) < Float.Tolerance := by
  unfold Float.Tolerance
  norm_num

theorem NearlyZero_eq_true_iff (f : F) : NearlyZero f = true ↔ f * f < Float.Tolerance := by
  simp [NearlyZero]

theorem NearlyZero_eq_false_iff (f : F) : NearlyZero f = false ↔ Float.Tolerance ≤ f * f := by
  simp [NearlyZero]

theorem ne_zero_of_not_NearlyZero {f : F} (h : NearlyZero f = false) : f ≠ 0 := by
  rw [NearlyZero_eq_false_iff] at h
  rintro rfl
  have := Float.Tolerance_pos (F := F)
  simp at h
  exact absurd h (not_le.mpr this)

/-- The determinant that `Inverse` assembles from `s0..s5`, `c0..c5` is the value of
`Determinant`. -/
theorem Matrix4x4.Inverse_det_eq (m : Matrix4x4 F) :
    (((m.M11 * m.M22) - (m.M12 * m.M21)) * ((m.M33 * m.M44) - (m.M34 * m.M43)))
      - (((m.M11 * m.M23) - (m.M13 * m.M21)) * ((m.M32 * m.M44) - (m.M34 * m.M42)))
      + (((m.M11 * m.M24) - (m.M14 * m.M21)) * ((m.M32 * m.M43) - (m.M33 * m.M42)))
      + (((m.M12 * m.M23) - (m.M13 * m.M22)) * ((m.M31 * m.M44) - (m.M34 * m.M41)))
      - (((m.M12 * m.M24) - (m.M14 * m.M22)) * ((m.M31 * m.M43) - (m.M33 * m.M41)))
      + (((m.M13 * m.M24) - (m.M14 * m.M23)) * ((m.M31 * m.M42) - (m.M32 * m.M41)))
    = m.Determinant := by
  simp only [Matrix4x4.Determinant]
  ring

/-- The value of `Inverse` on a matrix whose determinant passes the `NearlyZero` guard:
the sixteen closed-form terms, each times `1 / Determinant m`. -/
theorem Matrix4x4.Inverse_of_not_NearlyZero (m : Matrix4x4 F)
    (h : NearlyZero m.Determinant = false) :
    m.Inverse =
      (let s0 := (m.M11 * m.M22) - (m.M12 * m.M21)
       let s1 := (m.M11 * m.M23) - (m.M13 * m.M21)
       let s2 := (m.M11 * m.M24) - (m.M14 * m.M21)
       let s3 := (m.M12 * m.M23) - (m.M13 * m.M22)
       let s4 := (m.M12 * m.M24) - (m.M14 * m.M22)
       let s5 := (m.M13 * m.M24) - (m.M14 * m.M23)
       let c0 := (m.M31 * m.M42) - (m.M32 * m.M41)
       let c1 := (m.M31 * m.M43) - (m.M33 * m.M41)
       let c2 := (m.M31 * m.M44) - (m.M34 * m.M41)
       let c3 := (m.M32 * m.M43) - (m.M33 * m.M42)
       let c4 := (m.M32 * m.M44) - (m.M34 * m.M42)
       let c5 := (m.M33 * m.M44) - (m.M34 * m.M43)
       let invDet := 1 / m.Determinant
       ⟨((m.M22 * c5) - (m.M23 * c4) + (m.M24 * c3)) * invDet,
        (-(m.M12 * c5) + (m.M13 * c4) - (m.M14 * c3)) * invDet,
        ((m.M42 * s5) - (m.M43 * s4) + (m.M44 * s3)) * invDet,
        (-(m.M32 * s5) + (m.M33 * s4) - (m.M34 * s3)) * invDet,
        (-(m.M21 * c5) + (m.M23 * c2) - (m.M24 * c1)) * invDet,
        ((m.M11 * c5) - (m.M13 * c2) + (m.M14 * c1)) * invDet,
        (-(m.M41 * s5) + (m.M43 * s2) - (m.M44 * s1)) * invDet,
        ((m.M31 * s5) - (m.M33 * s2) + (m.M34 * s1)) * invDet,
        ((m.M21 * c4) - (m.M22 * c2) + (m.M24 * c0)) * invDet,
        (-(m.M11 * c4) + (m.M12 * c2) - (m.M14 * c0)) * invDet,
        ((m.M41 * s4) - (m.M42 * s2) + (m.M44 * s0)) * invDet,
        (-(m.M31 * s4) + (m.M32 * s2) - (m.M34 * s0)) * invDet,
        (-(m.M21 * c3) + (m.M22 * c1) - (m.M23 * c0)) * invDet,
        ((m.M11 * c3) - (m.M12 * c1) + (m.M13 * c0)) * invDet,
        (-(m.M41 * s3) + (m.M42 * s1) - (m.M43 * s0)) * invDet,
        ((m.M31 * s3) - (m.M32 * s1) + (m.M33 * s0)) * invDet⟩) := by
  simp only [Matrix4x4.Inverse]
  rw [Matrix4x4.Inverse_det_eq]
  simp [h]

/-- The value of `Inverse` on a matrix whose determinant is caught by the guard. -/
theorem Matrix4x4.Inverse_of_NearlyZero (m : Matrix4x4 F)
    (h : NearlyZero m.Determinant = true) : m.Inverse = Matrix4x4.Zero := by
  simp only [Matrix4x4.Inverse]
  rw [Matrix4x4.Inverse_det_eq]
  simp [h]

set_option maxHeartbeats 2000000 in
/-- Right and left inverse, for a determinant that passes the guard. -/
theorem Matrix4x4.Multiply_Inverse_aux (m : Matrix4x4 F)
    (h : NearlyZero m.Determinant = false) :
    m.Multiply m.Inverse = Matrix4x4.Identity ∧ m.Inverse.Multiply m = Matrix4x4.Identity := by
  have hd : m.Determinant ≠ 0 := ne_zero_of_not_NearlyZero h
  have hdi : m.Determinant * (1 / m.Determinant) = 1 := mul_one_div_cancel hd
  rw [Matrix4x4.Inverse_of_not_NearlyZero m h]
  generalize 1 / m.Determinant = i at hdi ⊢
  simp only [Matrix4x4.Determinant] at hdi
  constructor <;> ext <;> simp only [Matrix4x4.Multiply, Matrix4x4.Identity] <;>
    first
      | linear_combination hdi
      | ring1

theorem Matrix4x4.ofMatrix_toMatrix (m : Matrix4x4 F) : Matrix4x4.ofMatrix m.toMatrix = m := by
  ext <;> simp [Matrix4x4.ofMatrix, Matrix4x4.toMatrix]

theorem Matrix4x4.toMatrix_injective {a b : Matrix4x4 F} (h : a.toMatrix = b.toMatrix) :
    a = b := by
  rw [← Matrix4x4.ofMatrix_toMatrix a, ← Matrix4x4.ofMatrix_toMatrix b, h]

theorem Matrix4x4.toMatrix_Multiply (a b : Matrix4x4 F) :
    (a.Multiply b).toMatrix = a.toMatrix * b.toMatrix := by
  ext i j
  fin_cases i <;> fin_cases j <;>
    simp [Matrix4x4.toMatrix, Matrix4x4.Multiply, Matrix.mul_apply, Fin.sum_univ_four]

theorem Matrix4x4.toMatrix_Identity :
    (Matrix4x4.Identity : Matrix4x4 F).toMatrix = 1 := by
  ext i j
  fin_cases i <;> fin_cases j <;>
    simp [Matrix4x4.toMatrix, Matrix4x4.Identity, Matrix.one_apply, Matrix.vecHead, Matrix.vecTail]

/-- The code's `Determinant` is the determinant of the matrix. -/
theorem Matrix4x4.Determinant_eq_det (m : Matrix4x4 F) : m.Determinant = m.toMatrix.det := by
  have h1 : (Fin.succ 2 : Fin 4) = 3 := rfl
  have h2 : (Fin.castSucc 2 : Fin 4) = 2 := rfl
  rw [Matrix.det_succ_row_zero]
  simp [Matrix4x4.toMatrix, Matrix4x4.Determinant, Fin.sum_univ_succ, Matrix.det_fin_three,
    Fin.succAbove, h1, h2]
  ring

/-- The determinant of the computed inverse is the reciprocal of the determinant. -/
theorem Matrix4x4.Determinant_Inverse (m : Matrix4x4 F) (h : NearlyZero m.Determinant = false) :
    m.Inverse.Determinant = 1 / m.Determinant := by
  have hd : m.Determinant ≠ 0 := ne_zero_of_not_NearlyZero h
  have h1 := (Matrix4x4.Multiply_Inverse_aux m h).1
  have h2 := congrArg (fun a => a.toMatrix.det) h1
  simp only [Matrix4x4.toMatrix_Multiply, Matrix.det_mul, Matrix4x4.toMatrix_Identity,
    Matrix.det_one, ← Matrix4x4.Determinant_eq_det] at h2
  field_simp
  linear_combination h2

/-- Inverting twice gives the matrix back when both guards are passed. -/
theorem Matrix4x4.Inverse_Inverse_aux (m : Matrix4x4 F) (h : NearlyZero m.Determinant = false)
    (h' : NearlyZero (1 / m.Determinant) = false) : m.Inverse.Inverse = m := by
  have hN : NearlyZero m.Inverse.Determinant = false := by
    rw [Matrix4x4.Determinant_Inverse m h]; exact h'
  have h1 := (Matrix4x4.Multiply_Inverse_aux m h).1
  have h2 := (Matrix4x4.Multiply_Inverse_aux m.Inverse hN).1
  apply Matrix4x4.toMatrix_injective
  have e1 := congrArg Matrix4x4.toMatrix h1
  have e2 := congrArg Matrix4x4.toMatrix h2
  rw [Matrix4x4.toMatrix_Multiply, Matrix4x4.toMatrix_Identity] at e1 e2
  exact (left_inv_eq_right_inv e1 e2).symm ▸ rfl

/-- Past the guard the computed inverse is the classical adjugate over the determinant. -/
theorem Matrix4x4.toMatrix_Inverse (m : Matrix4x4 F) (h : NearlyZero m.Determinant = false) :
    m.Inverse.toMatrix = (1 / m.Determinant) • m.toMatrix.adjugate := by
  have hd : m.Determinant ≠ 0 := ne_zero_of_not_NearlyZero h
  have e1 := congrArg Matrix4x4.toMatrix (Matrix4x4.Multiply_Inverse_aux m h).1
  rw [Matrix4x4.toMatrix_Multiply, Matrix4x4.toMatrix_Identity] at e1
  rw [← Matrix.inv_eq_right_inv e1, Matrix.inv_def, Ring.inverse_eq_inv',
    ← Matrix4x4.Determinant_eq_det, one_div]

/-- Past the guard the computed inverse is not the `Zero` fallback. -/
theorem Matrix4x4.Inverse_ne_Zero (m : Matrix4x4 F) (h : NearlyZero m.Determinant = false) :
    m.Inverse ≠ Matrix4x4.Zero := by
  intro hz
  have h1 := (Matrix4x4.Multiply_Inverse_aux m h).1
  rw [hz] at h1
  have := congrArg Matrix4x4.M11 h1
  simp [Matrix4x4.Multiply, Matrix4x4.Zero, Matrix4x4.Identity] at this

/-- For a unit quaternion the unrolled double cross product is the product `q * v * conj(q)`. -/
theorem Vector3.TransformQuaternion_eq_specRotate (v : Vector3 F) (q : Quaternion F)
    (h : q.LengthSquared = 1) : v.TransformQuaternion q = v.specRotate q := by
  simp only [Quaternion.LengthSquared] at h
  simp only [Vector3.TransformQuaternion, Vector3.specRotate]
  ext
  · simp only []; linear_combination (-v.X) * h
  · simp only []; linear_combination (-v.Y) * h
  · simp only []; linear_combination (-v.Z) * h

/-- The product `q * v * conj(q)` composes along the Hamilton product. -/
theorem Vector3.specRotate_Multiply (v : Vector3 F) (q1 q2 : Quaternion F) :
    v.specRotate (q1.Multiply q2) = (v.specRotate q2).specRotate q1 := by
  simp only [Vector3.specRotate, Quaternion.Multiply]
  ext <;> simp only [] <;> ring

/-- The squared length of a product is the product of the squared lengths. -/
theorem Quaternion.LengthSquared_Multiply_aux (q1 q2 : Quaternion F) :
    (q1.Multiply q2).LengthSquared = q1.LengthSquared * q2.LengthSquared := by
  simp only [Quaternion.LengthSquared, Quaternion.Multiply]
  ring

/-- `Transform` of a `Vector4` is the row vector times the matrix. -/
theorem Vector4.toVec_Transform (v : Vector4 F) (m : Matrix4x4 F) :
    (v.Transform m).toVec = Matrix.vecMul v.toVec m.toMatrix := by
  ext i
  fin_cases i <;>
    simp [Vector4.toVec, Vector4.Transform, Matrix4x4.toMatrix, Matrix.vecMul, Matrix.dotProduct,
      Fin.sum_univ_four]

/-- The rotation matrix of a unit quaternion is its homogeneous form. -/
theorem Matrix4x4.CreateFromQuaternion_eq_spec (q : Quaternion F) (h : q.LengthSquared = 1) :
    Matrix4x4.CreateFromQuaternion q = Matrix4x4.specFromQuaternion q := by
  simp only [Quaternion.LengthSquared] at h
  simp only [Matrix4x4.CreateFromQuaternion, Matrix4x4.specFromQuaternion]
  ext <;> simp only [] <;> first | ring1 | linear_combination (-1 : F) * h

/-- The homogeneous rotation matrix of a product is the product of the matrices, in the
opposite order. -/
theorem Matrix4x4.specFromQuaternion_Multiply (q1 q2 : Quaternion F) :
    Matrix4x4.specFromQuaternion (q1.Multiply q2)
      = (Matrix4x4.specFromQuaternion q2).Multiply (Matrix4x4.specFromQuaternion q1) := by
  simp only [Matrix4x4.specFromQuaternion, Matrix4x4.Multiply, Quaternion.Multiply]
  ext <;> simp only [] <;> ring

/-- Rotation matrices of unit quaternions compose in the opposite order to the quaternions. -/
theorem Matrix4x4.CreateFromQuaternion_Multiply (q1 q2 : Quaternion F)
    (h1 : q1.LengthSquared = 1) (h2 : q2.LengthSquared = 1) :
    Matrix4x4.CreateFromQuaternion (q1.Multiply q2)
      = (Matrix4x4.CreateFromQuaternion q2).Multiply (Matrix4x4.CreateFromQuaternion q1) := by
  have h12 : (q1.Multiply q2).LengthSquared = 1 := by
    rw [Quaternion.LengthSquared_Multiply_aux, h1, h2, mul_one]
  rw [Matrix4x4.CreateFromQuaternion_eq_spec _ h12, Matrix4x4.specFromQuaternion_Multiply,
    Matrix4x4.CreateFromQuaternion_eq_spec _ h1, Matrix4x4.CreateFromQuaternion_eq_spec _ h2]

/-- The rows of the rotation matrix of a unit quaternion have unit length. -/
theorem Matrix4x4.CreateFromQuaternion_row_norms_aux (q : Quaternion F) (h : q.LengthSquared = 1) :
    (Matrix4x4.CreateFromQuaternion q).M11 * (Matrix4x4.CreateFromQuaternion q).M11
      + (Matrix4x4.CreateFromQuaternion q).M12 * (Matrix4x4.CreateFromQuaternion q).M12
      + (Matrix4x4.CreateFromQuaternion q).M13 * (Matrix4x4.CreateFromQuaternion q).M13 = 1 ∧
    (Matrix4x4.CreateFromQuaternion q).M21 * (Matrix4x4.CreateFromQuaternion q).M21
      + (Matrix4x4.CreateFromQuaternion q).M22 * (Matrix4x4.CreateFromQuaternion q).M22
      + (Matrix4x4.CreateFromQuaternion q).M23 * (Matrix4x4.CreateFromQuaternion q).M23 = 1 ∧
    (Matrix4x4.CreateFromQuaternion q).M31 * (Matrix4x4.CreateFromQuaternion q).M31
      + (Matrix4x4.CreateFromQuaternion q).M32 * (Matrix4x4.CreateFromQuaternion q).M32
      + (Matrix4x4.CreateFromQuaternion q).M33 * (Matrix4x4.CreateFromQuaternion q).M33 = 1 := by
  obtain ⟨x, y, z, w⟩ := q
  simp only [Quaternion.LengthSquared] at h
  simp only [Matrix4x4.CreateFromQuaternion]
  refine ⟨?_, ?_, ?_⟩
  · linear_combination (4 * (y * y + z * z)) * h
  · linear_combination (4 * (x * x + z * z)) * h
  · linear_combination (4 * (x * x + y * y)) * h

/-- The rows of the rotation matrix of a unit quaternion are pairwise orthogonal. -/
theorem Matrix4x4.CreateFromQuaternion_row_dots (q : Quaternion F) (h : q.LengthSquared = 1) :
    (Matrix4x4.CreateFromQuaternion q).M11 * (Matrix4x4.CreateFromQuaternion q).M21
      + (Matrix4x4.CreateFromQuaternion q).M12 * (Matrix4x4.CreateFromQuaternion q).M22
      + (Matrix4x4.CreateFromQuaternion q).M13 * (Matrix4x4.CreateFromQuaternion q).M23 = 0 ∧
    (Matrix4x4.CreateFromQuaternion q).M11 * (Matrix4x4.CreateFromQuaternion q).M31
      + (Matrix4x4.CreateFromQuaternion q).M12 * (Matrix4x4.CreateFromQuaternion q).M32
      + (Matrix4x4.CreateFromQuaternion q).M13 * (Matrix4x4.CreateFromQuaternion q).M33 = 0 ∧
    (Matrix4x4.CreateFromQuaternion q).M21 * (Matrix4x4.CreateFromQuaternion q).M31
      + (Matrix4x4.CreateFromQuaternion q).M22 * (Matrix4x4.CreateFromQuaternion q).M32
      + (Matrix4x4.CreateFromQuaternion q).M23 * (Matrix4x4.CreateFromQuaternion q).M33 = 0 := by
  obtain ⟨x, y, z, w⟩ := q
  simp only [Quaternion.LengthSquared] at h
  simp only [Matrix4x4.CreateFromQuaternion]
  refine ⟨?_, ?_, ?_⟩
  · linear_combination (-4 * x * y) * h
  · linear_combination (-4 * x * z) * h
  · linear_combination (-4 * y * z) * h

end Lemmas

/-! ## Shared lemmas over the reals -/

section RealLemmas

theorem Sqrt_eq_two_mul_abs {E : ℝ} (a : ℝ) (hE : E = (2 * a) ^ 2) : Sqrt E = 2 * |a| := by
  rw [Sqrt, hE, Real.sqrt_sq_eq_abs, abs_mul, abs_two]

/-- Matrix-to-quaternion after quaternion-to-matrix returns the quaternion up to sign. -/
theorem Quaternion.CreateFromMatrix_CreateFromQuaternion_aux (q : Quaternion ℝ)
    (h : q.LengthSquared = 1) :
    Quaternion.CreateFromMatrix (Matrix4x4.CreateFromQuaternion q) = q ∨
      Quaternion.CreateFromMatrix (Matrix4x4.CreateFromQuaternion q) = q.Negate := by
  obtain ⟨x, y, z, w⟩ := q
  simp only [Quaternion.LengthSquared] at h
  simp only [Quaternion.CreateFromMatrix, Matrix4x4.CreateFromQuaternion, Quaternion.Negate]
  split_ifs with h1 h2 h3
  · have hw : w ≠ 0 := by
      rintro rfl
      nlinarith
    rw [Sqrt_eq_two_mul_abs w (by linear_combination (-4 : ℝ) * h)]
    rcases lt_or_gt_of_ne hw with hneg | hpos
    · right
      rw [abs_of_neg hneg]
      ext <;> (try field_simp) <;> ring
    · left
      rw [abs_of_pos hpos]
      ext <;> (try field_simp) <;> ring
  · have hx : x ≠ 0 := by
      rintro rfl
      nlinarith [mul_self_nonneg y, h2.1]
    rw [Sqrt_eq_two_mul_abs x (by ring)]
    rcases lt_or_gt_of_ne hx with hneg | hpos
    · right
      rw [abs_of_neg hneg]
      ext <;> (try field_simp) <;> ring
    · left
      rw [abs_of_pos hpos]
      ext <;> (try field_simp) <;> ring
  · have hy : y ≠ 0 := by
      rintro rfl
      nlinarith [mul_self_nonneg z]
    rw [Sqrt_eq_two_mul_abs y (by ring)]
    rcases lt_or_gt_of_ne hy with hneg | hpos
    · right
      rw [abs_of_neg hneg]
      ext <;> (try field_simp) <;> ring
    · left
      rw [abs_of_pos hpos]
      ext <;> (try field_simp) <;> ring
  · have hz : z ≠ 0 := by
      rintro rfl
      have hy : y * y ≤ 0 := by nlinarith
      have hy0 : y = 0 := by nlinarith [mul_self_nonneg y, mul_self_eq_zero.mp (le_antisymm hy (mul_self_nonneg y))]
      subst hy0
      rw [not_and_or] at h2
      have hx : x * x ≤ 0 := by
        rcases h2 with h2 | h2 <;> nlinarith
      have hx0 : x = 0 := mul_self_eq_zero.mp (le_antisymm hx (mul_self_nonneg x))
      subst hx0
      apply h1
      nlinarith
    rw [Sqrt_eq_two_mul_abs z (by ring)]
    rcases lt_or_gt_of_ne hz with hneg | hpos
    · right
      rw [abs_of_neg hneg]
      ext <;> (try field_simp) <;> ring
    · left
      rw [abs_of_pos hpos]
      ext <;> (try field_simp) <;> ring

theorem Sqrt_mul_self_of_pos {a : ℝ} (ha : 0 < a) : Sqrt (a * a) = a := by
  rw [Sqrt, Real.sqrt_mul_self ha.le]

/-- The rows of the rotation matrix of a unit quaternion have unit length. -/
theorem Matrix4x4.CreateFromQuaternion_row_norms (q : Quaternion ℝ) (h : q.LengthSquared = 1) :
    (Matrix4x4.CreateFromQuaternion q).M11 * (Matrix4x4.CreateFromQuaternion q).M11
      + (Matrix4x4.CreateFromQuaternion q).M12 * (Matrix4x4.CreateFromQuaternion q).M12
      + (Matrix4x4.CreateFromQuaternion q).M13 * (Matrix4x4.CreateFromQuaternion q).M13 = 1 ∧
    (Matrix4x4.CreateFromQuaternion q).M21 * (Matrix4x4.CreateFromQuaternion q).M21
      + (Matrix4x4.CreateFromQuaternion q).M22 * (Matrix4x4.CreateFromQuaternion q).M22
      + (Matrix4x4.CreateFromQuaternion q).M23 * (Matrix4x4.CreateFromQuaternion q).M23 = 1 ∧
    (Matrix4x4.CreateFromQuaternion q).M31 * (Matrix4x4.CreateFromQuaternion q).M31
      + (Matrix4x4.CreateFromQuaternion q).M32 * (Matrix4x4.CreateFromQuaternion q).M32
      + (Matrix4x4.CreateFromQuaternion q).M33 * (Matrix4x4.CreateFromQuaternion q).M33 = 1 := by
  obtain ⟨x, y, z, w⟩ := q
  simp only [Quaternion.LengthSquared] at h
  simp only [Matrix4x4.CreateFromQuaternion]
  refine ⟨?_, ?_, ?_⟩
  · linear_combination (4 * (y * y + z * z)) * h
  · linear_combination (4 * (x * x + z * z)) * h
  · linear_combination (4 * (x * x + y * y)) * h

/-- The matrix `CreateSRT` builds: row `i` of the rotation matrix times the `i`-th scale,
then the translation row. -/
theorem Matrix4x4.CreateSRT_eq (t : Vector3 ℝ) (r : Quaternion ℝ) (s : Vector3 ℝ) :
    Matrix4x4.CreateSRT t r s =
      ⟨s.X * (Matrix4x4.CreateFromQuaternion r).M11, s.X * (Matrix4x4.CreateFromQuaternion r).M12,
        s.X * (Matrix4x4.CreateFromQuaternion r).M13, 0,
       s.Y * (Matrix4x4.CreateFromQuaternion r).M21, s.Y * (Matrix4x4.CreateFromQuaternion r).M22,
        s.Y * (Matrix4x4.CreateFromQuaternion r).M23, 0,
       s.Z * (Matrix4x4.CreateFromQuaternion r).M31, s.Z * (Matrix4x4.CreateFromQuaternion r).M32,
        s.Z * (Matrix4x4.CreateFromQuaternion r).M33, 0,
       t.X, t.Y, t.Z, 1⟩ := by
  ext <;>
    simp [Matrix4x4.CreateSRT, Matrix4x4.Transform, Matrix4x4.Multiply,
      Matrix4x4.CreateScaleVector3, Matrix4x4.CreateScale, Matrix4x4.CreateFromQuaternion]

/-- `Decompose` on a matrix whose three rows are positive multiples of unit vectors. -/
theorem Matrix4x4.Decompose_of_scaled_rows (R : Matrix4x4 ℝ) (a b c tx ty tz m14 m24 m34 m44 : ℝ)
    (n1 : R.M11 * R.M11 + R.M12 * R.M12 + R.M13 * R.M13 = 1)
    (n2 : R.M21 * R.M21 + R.M22 * R.M22 + R.M23 * R.M23 = 1)
    (n3 : R.M31 * R.M31 + R.M32 * R.M32 + R.M33 * R.M33 = 1)
    (ha : 0 < a) (hb : 0 < b) (hc : 0 < c)
    (za : NearlyZero (a * a) = false) (zb : NearlyZero (b * b) = false)
    (zc : NearlyZero (c * c) = false) :
    Matrix4x4.Decompose
      ⟨a * R.M11, a * R.M12, a * R.M13, m14,
       b * R.M21, b * R.M22, b * R.M23, m24,
       c * R.M31, c * R.M32, c * R.M33, m34,
       tx, ty, tz, m44⟩ =
      ⟨true, ⟨a, b, c⟩,
        Quaternion.CreateFromMatrix
          ⟨R.M11, R.M12, R.M13, 0, R.M21, R.M22, R.M23, 0, R.M31, R.M32, R.M33, 0, 0, 0, 0, 1⟩,
        ⟨tx, ty, tz⟩⟩ := by
  have ex : a * R.M11 * (a * R.M11) + a * R.M12 * (a * R.M12) + a * R.M13 * (a * R.M13)
      = a * a := by linear_combination (a * a) * n1
  have ey : b * R.M21 * (b * R.M21) + b * R.M22 * (b * R.M22) + b * R.M23 * (b * R.M23)
      = b * b := by linear_combination (b * b) * n2
  have ez : c * R.M31 * (c * R.M31) + c * R.M32 * (c * R.M32) + c * R.M33 * (c * R.M33)
      = c * c := by linear_combination (c * c) * n3
  simp only [Matrix4x4.Decompose, ex, ey, ez, za, zb, zc, Sqrt_mul_self_of_pos ha,
    Sqrt_mul_self_of_pos hb, Sqrt_mul_self_of_pos hc, Bool.or_self, Bool.false_eq_true,
    if_false]
  have ea : ∀ u : ℝ, a * u * (1 / a) = u := fun u => by field_simp
  have eb : ∀ u : ℝ, b * u * (1 / b) = u := fun u => by field_simp
  have ec : ∀ u : ℝ, c * u * (1 / c) = u := fun u => by field_simp
  simp only [ea, eb, ec]

/-- Decomposing a scale-rotate-translate matrix with positive scale. -/
theorem Matrix4x4.Decompose_CreateSRT_aux (t : Vector3 ℝ) (r : Quaternion ℝ) (s : Vector3 ℝ)
    (hr : r.LengthSquared = 1) (hx : 0 < s.X) (hy : 0 < s.Y) (hz : 0 < s.Z)
    (zx : NearlyZero (s.X * s.X) = false) (zy : NearlyZero (s.Y * s.Y) = false)
    (zz : NearlyZero (s.Z * s.Z) = false) :
    (Matrix4x4.CreateSRT t r s).Decompose.success = true ∧
    (Matrix4x4.CreateSRT t r s).Decompose.outTranslation = t ∧
    (Matrix4x4.CreateSRT t r s).Decompose.outScale = s ∧
    ((Matrix4x4.CreateSRT t r s).Decompose.outOrientation = r ∨
      (Matrix4x4.CreateSRT t r s).Decompose.outOrientation = r.Negate) := by
  obtain ⟨n1, n2, n3⟩ := Matrix4x4.CreateFromQuaternion_row_norms r hr
  rw [Matrix4x4.CreateSRT_eq,
    Matrix4x4.Decompose_of_scaled_rows _ _ _ _ _ _ _ _ _ _ _ n1 n2 n3 hx hy hz zx zy zz]
  refine ⟨rfl, rfl, rfl, ?_⟩
  exact Quaternion.CreateFromMatrix_CreateFromQuaternion_aux r hr

/-- Cauchy-Schwarz for two quaternions. -/
theorem Quaternion.Dot_sq_le (a b : Quaternion ℝ) :
    a.Dot b * a.Dot b ≤ a.LengthSquared * b.LengthSquared := by
  obtain ⟨x, y, z, w⟩ := a
  obtain ⟨p, q, r, s⟩ := b
  simp only [Quaternion.Dot, Quaternion.LengthSquared]
  nlinarith [sq_nonneg (x * q - y * p), sq_nonneg (x * r - z * p), sq_nonneg (x * s - w * p),
    sq_nonneg (y * r - z * q), sq_nonneg (y * s - w * q), sq_nonneg (z * s - w * r)]

/-- What `Slerp` computes when the cosine is strictly inside `(-1, 1)` and the angle passes
the `NearlyZero` test. -/
theorem Quaternion.Slerp_of_arccos (q1 q2 : Quaternion ℝ) (weight : ℝ)
    (hlo : -1 < q1.Dot q2) (hhi : q1.Dot q2 < 1)
    (hz : NearlyZero (Real.arccos (q1.Dot q2)) = false) :
    Quaternion.Slerp q1 q2 weight =
      ⟨Real.sin (Real.arccos (q1.Dot q2) - weight * Real.arccos (q1.Dot q2))
            * (1 / Real.sin (Real.arccos (q1.Dot q2))) * q1.X
          + Real.sin (weight * Real.arccos (q1.Dot q2))
            * (1 / Real.sin (Real.arccos (q1.Dot q2))) * q2.X,
       Real.sin (Real.arccos (q1.Dot q2) - weight * Real.arccos (q1.Dot q2))
            * (1 / Real.sin (Real.arccos (q1.Dot q2))) * q1.Y
          + Real.sin (weight * Real.arccos (q1.Dot q2))
            * (1 / Real.sin (Real.arccos (q1.Dot q2))) * q2.Y,
       Real.sin (Real.arccos (q1.Dot q2) - weight * Real.arccos (q1.Dot q2))
            * (1 / Real.sin (Real.arccos (q1.Dot q2))) * q1.Z
          + Real.sin (weight * Real.arccos (q1.Dot q2))
            * (1 / Real.sin (Real.arccos (q1.Dot q2))) * q2.Z,
       Real.sin (Real.arccos (q1.Dot q2) - weight * Real.arccos (q1.Dot q2))
            * (1 / Real.sin (Real.arccos (q1.Dot q2))) * q1.W
          + Real.sin (weight * Real.arccos (q1.Dot q2))
            * (1 / Real.sin (Real.arccos (q1.Dot q2))) * q2.W⟩ := by
  have hA : ACos (q1.Dot q2) = Real.arccos (q1.Dot q2) := by
    simp [ACos, hlo, hhi]
  simp only [Quaternion.Slerp, hA, hz, Sin, Bool.false_eq_true, if_false]

/-- The sine of the angle of a cosine strictly inside `(-1, 1)` is positive. -/
theorem sin_arccos_pos {c : ℝ} (hlo : -1 < c) (hhi : c < 1) : 0 < Real.sin (Real.arccos c) := by
  apply Real.sin_pos_of_pos_of_lt_pi (Real.arccos_pos.mpr hhi)
  rcases lt_or_eq_of_le (Real.arccos_le_pi c) with h | h
  · exact h
  · rw [Real.arccos_eq_pi] at h
    linarith

/-- The angle is at least as large as its sine, so its square is at least `1 - c^2`. -/
theorem one_sub_sq_le_arccos_sq {c : ℝ} (hlo : -1 < c) (hhi : c < 1) :
    1 - c * c ≤ Real.arccos c * Real.arccos c := by
  have h0 := Real.arccos_nonneg c
  have h1 : Real.sin (Real.arccos c) ≤ Real.arccos c := Real.sin_le h0
  have h2 := (sin_arccos_pos hlo hhi).le
  have h3 := Real.sin_sq_add_cos_sq (Real.arccos c)
  rw [Real.cos_arccos hlo.le hhi.le] at h3
  nlinarith

/-- Unit quaternions that are neither aligned nor antipodal have a cosine in `[-0.999, 0.999]`. -/
theorem Quaternion.abs_Dot_le (q1 q2 : Quaternion ℝ) (h1 : q1.LengthSquared = 1)
    (h2 : q2.LengthSquared = 1) (hne : NearlyEqual (Abs (q1.Dot q2)) 1 = false) :
    |q1.Dot q2| ≤ 0.999 := by
  have hcs := Quaternion.Dot_sq_le q1 q2
  rw [h1, h2] at hcs
  have habs : |q1.Dot q2| ≤ 1 := by
    rw [abs_le]
    constructor <;> nlinarith
  simp only [NearlyEqual, Abs, NearlyZero_eq_false_iff, Float.Tolerance] at hne
  by_contra hc
  push_neg at hc
  nlinarith

/-- The angle `pi / 2` is not caught by `NearlyZero`. -/
theorem pi_div_two_not_NearlyZero : NearlyZero (Real.pi / 2) = false := by
  rw [NearlyZero_eq_false_iff]
  have := Real.pi_gt_three
  unfold Float.Tolerance
  nlinarith

/-- The argument of `Sqrt` in the selected branch is at least one. -/
theorem Quaternion.one_le_CreateFromMatrixSqrtArg (m : Matrix4x4 ℝ) :
    1 ≤ Quaternion.CreateFromMatrixSqrtArg m := by
  simp only [Quaternion.CreateFromMatrixSqrtArg]
  split_ifs with h1 h2 h3
  · linarith
  · obtain ⟨h2a, h2b⟩ := h2
    push_neg at h1
    rcases le_or_lt 0 m.M11 with h | h <;> linarith
  · push_neg at h1
    rw [not_and_or] at h2
    rcases le_or_lt 0 m.M22 with h | h <;> rcases h2 with h2 | h2 <;> linarith
  · push_neg at h1 h3
    rw [not_and_or] at h2
    rcases le_or_lt 0 m.M33 with h | h <;> rcases h2 with h2 | h2 <;> linarith

/-- `ATan2` of a positive multiple of `(sin t, cos t)` is `t` up to a whole number of turns. -/
theorem ATan2_sin_cos (r t : ℝ) (hr : 0 < r) :
    ∃ k : ℤ, ATan2 (r * Real.sin t) (r * Real.cos t) = t + k * (2 * Real.pi) := by
  have hne : ¬ (r * Real.sin t = 0 ∧ r * Real.cos t = 0) := by
    rintro ⟨h1, h2⟩
    have hs : Real.sin t = 0 := by
      rcases mul_eq_zero.mp h1 with h | h
      · exact absurd h hr.ne'
      · exact h
    have hc : Real.cos t = 0 := by
      rcases mul_eq_zero.mp h2 with h | h
      · exact absurd h hr.ne'
      · exact h
    have := Real.sin_sq_add_cos_sq t
    rw [hs, hc] at this
    norm_num at this
  have hz : (⟨r * Real.cos t, r * Real.sin t⟩ : ℂ)
      = (r : ℂ) * (Complex.cos t + Complex.sin t * Complex.I) := by
    apply Complex.ext <;> simp [← Complex.ofReal_cos, ← Complex.ofReal_sin]
  refine ⟨⌊(Real.pi - t) / (2 * Real.pi)⌋, ?_⟩
  rw [ATan2, if_neg hne, hz]
  have := Complex.arg_mul_cos_add_sin_mul_I_sub hr t
  linarith

/-- `ATan2` of a positive multiple of `(sin t, cos t)` is `t` itself for `t` in `(-pi, pi]`. -/
theorem ATan2_sin_cos_of_mem (r t : ℝ) (hr : 0 < r) (h1 : -Real.pi < t) (h2 : t ≤ Real.pi) :
    ATan2 (r * Real.sin t) (r * Real.cos t) = t := by
  have hne : ¬ (r * Real.sin t = 0 ∧ r * Real.cos t = 0) := by
    rintro ⟨h1, h2⟩
    have hs : Real.sin t = 0 := by
      rcases mul_eq_zero.mp h1 with h | h
      · exact absurd h hr.ne'
      · exact h
    have hc : Real.cos t = 0 := by
      rcases mul_eq_zero.mp h2 with h | h
      · exact absurd h hr.ne'
      · exact h
    have := Real.sin_sq_add_cos_sq t
    rw [hs, hc] at this
    norm_num at this
  have hz : (⟨r * Real.cos t, r * Real.sin t⟩ : ℂ)
      = (r : ℂ) * (Complex.cos t + Complex.sin t * Complex.I) := by
    apply Complex.ext <;> simp [← Complex.ofReal_cos, ← Complex.ofReal_sin]
  rw [ATan2, if_neg hne, hz]
  exact Complex.arg_mul_cos_add_sin_mul_I hr ⟨h1, h2⟩

/-- A number is nearly equal to itself. -/
theorem NearlyEqual_self (a : ℝ) : NearlyEqual a a = true := by
  norm_num [NearlyEqual, NearlyZero, Float.Tolerance]

/-- The numbers `-1` and `1` are not nearly equal. -/
theorem NearlyEqual_neg_one_one : NearlyEqual (-1 : ℝ) 1 = false := by
  norm_num [NearlyEqual, NearlyZero, Float.Tolerance]

/-- The reciprocal square root of a positive number is positive. -/
theorem InvSqrt_pos {x : ℝ} (h : 0 < x) : 0 < InvSqrt x := by
  rw [InvSqrt]
  exact one_div_pos.mpr (Real.sqrt_pos.mpr h)

/-- A vector of zero squared length is the zero vector. -/
theorem Vector3.LengthSquared_pos_or (v : Vector3 ℝ) :
    0 < v.LengthSquared ∨ (v.X = 0 ∧ v.Y = 0 ∧ v.Z = 0) := by
  rcases lt_or_ge 0 v.LengthSquared with h | h
  · exact Or.inl h
  · right
    simp only [Vector3.LengthSquared] at h
    have hx := mul_self_nonneg v.X
    have hy := mul_self_nonneg v.Y
    have hz := mul_self_nonneg v.Z
    refine ⟨?_, ?_, ?_⟩ <;> apply mul_self_eq_zero.mp <;> linarith

/-- The first row of a non-zero 3x3 determinant is not the zero vector. -/
theorem Vector3.LengthSquared_pos_of_det3_left {a b c : Vector3 ℝ} (h : Vector3.det3 a b c ≠ 0) :
    0 < a.LengthSquared := by
  rcases Vector3.LengthSquared_pos_or a with hp | ⟨hx, hy, hz⟩
  · exact hp
  · exact absurd (by simp [Vector3.det3, hx, hy, hz]) h

/-- The second row of a non-zero 3x3 determinant is not the zero vector. -/
theorem Vector3.LengthSquared_pos_of_det3_mid {a b c : Vector3 ℝ} (h : Vector3.det3 a b c ≠ 0) :
    0 < b.LengthSquared := by
  rcases Vector3.LengthSquared_pos_or b with hp | ⟨hx, hy, hz⟩
  · exact hp
  · exact absurd (by simp [Vector3.det3, hx, hy, hz]) h

/-- The third row of a non-zero 3x3 determinant is not the zero vector. -/
theorem Vector3.LengthSquared_pos_of_det3_right {a b c : Vector3 ℝ} (h : Vector3.det3 a b c ≠ 0) :
    0 < c.LengthSquared := by
  rcases Vector3.LengthSquared_pos_or c with hp | ⟨hx, hy, hz⟩
  · exact hp
  · exact absurd (by simp [Vector3.det3, hx, hy, hz]) h

/-- The determinant of the upper-left block, written out on its three rows. -/
theorem Matrix4x4.det_toMatrix3 (m : Matrix4x4 ℝ) :
    m.toMatrix3.det
      = Vector3.det3 ⟨m.M11, m.M12, m.M13⟩ ⟨m.M21, m.M22, m.M23⟩ ⟨m.M31, m.M32, m.M33⟩ := by
  simp only [Matrix4x4.toMatrix3, Matrix.det_fin_three, Vector3.det3]
  simp
  ring

/-- The determinant of the block `Orthonormalize` returns is the determinant of the input
block times a positive factor, when the latter is not zero. -/
theorem Matrix4x4.det_Orthonormalize_aux (m : Matrix4x4 ℝ) (h : m.toMatrix3.det ≠ 0) :
    ∃ p : ℝ, 0 < p ∧ m.Orthonormalize.toMatrix3.det = p * m.toMatrix3.det := by
  rw [Matrix4x4.det_toMatrix3] at h
  rw [Matrix4x4.det_toMatrix3, Matrix4x4.det_toMatrix3]
  simp only [Matrix4x4.Orthonormalize, Vector3.Normalize]
  generalize hb1 : (⟨m.M11, m.M12, m.M13⟩ : Vector3 ℝ) = b1 at h ⊢
  generalize hb2 : (⟨m.M21, m.M22, m.M23⟩ : Vector3 ℝ) = b2 at h ⊢
  generalize hb3 : (⟨m.M31, m.M32, m.M33⟩ : Vector3 ℝ) = b3 at h ⊢
  have hs1 : 0 < InvSqrt b1.LengthSquared :=
    InvSqrt_pos (Vector3.LengthSquared_pos_of_det3_left h)
  generalize InvSqrt b1.LengthSquared = s1 at hs1 ⊢
  generalize hc1 : b2.Dot (b1.MultiplyFloat s1) = c1
  have e2 : Vector3.det3 b1 (b2.Subtract ((b1.MultiplyFloat s1).MultiplyFloat c1)) b3
      = Vector3.det3 b1 b2 b3 := by
    simp only [Vector3.det3, Vector3.Subtract, Vector3.MultiplyFloat]; ring
  have hs2 : 0 < InvSqrt (b2.Subtract ((b1.MultiplyFloat s1).MultiplyFloat c1)).LengthSquared :=
    InvSqrt_pos (Vector3.LengthSquared_pos_of_det3_mid (e2 ▸ h))
  generalize hv2 : b2.Subtract ((b1.MultiplyFloat s1).MultiplyFloat c1) = v2 at e2 hs2 ⊢
  generalize InvSqrt v2.LengthSquared = s2 at hs2 ⊢
  generalize hc2 : b3.Dot (v2.MultiplyFloat s2) = c2
  have e3 : Vector3.det3 b1 v2 (b3.Subtract ((v2.MultiplyFloat s2).MultiplyFloat c2))
      = Vector3.det3 b1 v2 b3 := by
    simp only [Vector3.det3, Vector3.Subtract, Vector3.MultiplyFloat]; ring
  have hs3 : 0 < InvSqrt (b3.Subtract ((v2.MultiplyFloat s2).MultiplyFloat c2)).LengthSquared :=
    InvSqrt_pos (Vector3.LengthSquared_pos_of_det3_right (by rw [e3, e2]; exact h))
  generalize hv3 : b3.Subtract ((v2.MultiplyFloat s2).MultiplyFloat c2) = v3 at e3 hs3 ⊢
  generalize InvSqrt v3.LengthSquared = s3 at hs3 ⊢
  refine ⟨s1 * s2 * s3, by positivity, ?_⟩
  rw [← e2, ← e3]
  simp only [Vector3.det3, Vector3.MultiplyFloat]
  ring

/-- Linearly independent rows mean a non-zero determinant. -/
theorem Matrix4x4.det_toMatrix3_ne_zero (m : Matrix4x4 ℝ)
    (h : LinearIndependent ℝ (fun i => m.toMatrix3 i)) : m.toMatrix3.det ≠ 0 := by
  rw [Matrix.linearIndependent_rows_iff_isUnit, Matrix.isUnit_iff_isUnit_det] at h
  exact h.ne_zero

/-- The reciprocal square root times the number is the square root. -/
theorem InvSqrt_mul_self {x : ℝ} (h : 0 < x) : InvSqrt x * x = Sqrt x := by
  rw [InvSqrt, Sqrt]
  have hs : Real.sqrt x ≠ 0 := (Real.sqrt_pos.mpr h).ne'
  field_simp

/-- Two different points are a positive distance apart. -/
theorem Vector3.LengthSquared_Subtract_pos {a b : Vector3 ℝ} (h : a ≠ b) :
    0 < (a.Subtract b).LengthSquared := by
  rcases lt_or_ge 0 (a.Subtract b).LengthSquared with hp | hp
  · exact hp
  · exfalso
    apply h
    simp only [Vector3.LengthSquared, Vector3.Subtract] at hp
    have hx := mul_self_nonneg (a.X - b.X)
    have hy := mul_self_nonneg (a.Y - b.Y)
    have hz := mul_self_nonneg (a.Z - b.Z)
    ext
    · exact sub_eq_zero.mp (mul_self_eq_zero.mp (by linarith))
    · exact sub_eq_zero.mp (mul_self_eq_zero.mp (by linarith))
    · exact sub_eq_zero.mp (mul_self_eq_zero.mp (by linarith))

/-- Normalizing a unit quaternion returns it. -/
theorem Quaternion.Normalize_of_unit (q : Quaternion ℝ) (h : q.LengthSquared = 1) :
    q.Normalize = q := by
  simp [Quaternion.Normalize, Quaternion.MultiplyFloat, InvSqrt, h]

/-- Normalizing a non-zero vector gives a unit vector. -/
theorem Vector3.LengthSquared_Normalize {v : Vector3 ℝ} (h : 0 < v.LengthSquared) :
    v.Normalize.LengthSquared = 1 := by
  have hs : Real.sqrt v.LengthSquared ≠ 0 := (Real.sqrt_pos.mpr h).ne'
  have e : v.Normalize.LengthSquared
      = v.LengthSquared * (InvSqrt v.LengthSquared * InvSqrt v.LengthSquared) := by
    simp only [Vector3.Normalize, Vector3.MultiplyFloat, Vector3.LengthSquared]
    ring
  rw [e, InvSqrt]
  field_simp

/-- Lagrange's identity for the cross product. -/
theorem Vector3.LengthSquared_Cross (a b : Vector3 ℝ) :
    (a.Cross b).LengthSquared = a.LengthSquared * b.LengthSquared - a.Dot b * a.Dot b := by
  simp only [Vector3.Cross, Vector3.LengthSquared, Vector3.Dot]
  ring

/-- The squared length of a combination of two quaternions. -/
theorem Quaternion.LengthSquared_combination (q1 q2 : Quaternion ℝ) (t1 t2 : ℝ) :
    Quaternion.LengthSquared
        ⟨t1 * q1.X + t2 * q2.X, t1 * q1.Y + t2 * q2.Y, t1 * q1.Z + t2 * q2.Z,
          t1 * q1.W + t2 * q2.W⟩
      = t1 * t1 * q1.LengthSquared + t2 * t2 * q2.LengthSquared + 2 * t1 * t2 * q1.Dot q2 := by
  simp only [Quaternion.LengthSquared, Quaternion.Dot]
  ring

/-- The elementary rotation quaternions are unit quaternions. -/
theorem Quaternion.LengthSquared_CreateRotation (t : ℝ) :
    (Quaternion.CreateRotationX t).LengthSquared = 1 ∧
    (Quaternion.CreateRotationY t).LengthSquared = 1 ∧
    (Quaternion.CreateRotationZ t).LengthSquared = 1 := by
  have h := Real.sin_sq_add_cos_sq (t * 0.5)
  refine ⟨?_, ?_, ?_⟩ <;>
    · simp only [Quaternion.CreateRotationX, Quaternion.CreateRotationY,
        Quaternion.CreateRotationZ, SinCos, Quaternion.LengthSquared]
      linear_combination h

/-- The sine in terms of the half angle. -/
theorem sin_eq_half_angle (t : ℝ) :
    Real.sin t = 2 * Real.sin (t * 0.5) * Real.cos (t * 0.5) := by
  rw [← Real.sin_two_mul]; congr 1; ring

/-- The cosine in terms of the half angle. -/
theorem cos_eq_half_angle (t : ℝ) : Real.cos t = 1 - 2 * Real.sin (t * 0.5) ^ 2 := by
  have h := Real.cos_two_mul (t * 0.5)
  have h2 := Real.sin_sq_add_cos_sq (t * 0.5)
  have e : 2 * (t * 0.5) = t := by ring
  rw [e] at h
  linear_combination h + 2 * h2

/-- The quaternion and matrix elementary rotations agree. -/
theorem Matrix4x4.CreateFromQuaternion_CreateRotation (t : ℝ) :
    Matrix4x4.CreateFromQuaternion (Quaternion.CreateRotationX t) = Matrix4x4.CreateRotationX t ∧
    Matrix4x4.CreateFromQuaternion (Quaternion.CreateRotationY t) = Matrix4x4.CreateRotationY t ∧
    Matrix4x4.CreateFromQuaternion (Quaternion.CreateRotationZ t)
      = Matrix4x4.CreateRotationZ t := by
  refine ⟨?_, ?_, ?_⟩ <;>
    · simp only [Matrix4x4.CreateFromQuaternion, Quaternion.CreateRotationX,
        Quaternion.CreateRotationY, Quaternion.CreateRotationZ, Matrix4x4.CreateRotationX,
        Matrix4x4.CreateRotationY, Matrix4x4.CreateRotationZ, SinCos, sin_eq_half_angle t,
        cos_eq_half_angle t]
      ext <;> simp only [] <;> ring

/-- The unrolled yaw-pitch-roll quaternion is the product the source comment names. -/
theorem Quaternion.CreateFromYawPitchRoll_unrolled (yaw pitch roll : ℝ) :
    Quaternion.CreateFromYawPitchRoll yaw pitch roll
      = (Quaternion.CreateRotationZ roll).Multiply
          ((Quaternion.CreateRotationX pitch).Multiply (Quaternion.CreateRotationY yaw)) := by
  simp only [Quaternion.CreateFromYawPitchRoll, Quaternion.CreateRotationX,
    Quaternion.CreateRotationY, Quaternion.CreateRotationZ, Quaternion.Multiply, SinCos]
  ext <;> simp only [] <;> ring

/-- The yaw-pitch-roll matrix is the product of the three elementary rotations. -/
theorem Matrix4x4.CreateFromYawPitchRoll_product (yaw pitch roll : ℝ) :
    Matrix4x4.CreateFromYawPitchRoll yaw pitch roll
      = ((Matrix4x4.CreateRotationY yaw).Multiply (Matrix4x4.CreateRotationX pitch)).Multiply
          (Matrix4x4.CreateRotationZ roll) := by
  simp only [Matrix4x4.CreateFromYawPitchRoll, Matrix4x4.CreateRotationX,
    Matrix4x4.CreateRotationY, Matrix4x4.CreateRotationZ, Matrix4x4.Multiply, SinCos]
  ext <;> simp only [] <;> ring

end RealLemmas

/-! ## The claims -/

section Claims

variable {F : Type} [LinearOrderedField F]

/-- Claim C1. For every matrix `M` whose determinant `d` is not nearly zero
(`d * d >= Tolerance`), `Multiply(M, Inverse(M))` and `Multiply(Inverse(M), M)` are both the
`Identity` matrix, in exact arithmetic (any linearly ordered field, the reals among them). -/
theorem Matrix4x4.Multiply_Inverse_eq_Identity (M : Matrix4x4 F)
    (h : Float.Tolerance ≤ M.Determinant * M.Determinant) :
    M.Multiply M.Inverse = Matrix4x4.Identity ∧ M.Inverse.Multiply M = Matrix4x4.Identity :=
  Matrix4x4.Multiply_Inverse_aux M ((NearlyZero_eq_false_iff _).mpr h)

/-- Claim C1 at the scale matrix `CreateScale(2, 4, 5)` over the reals. -/
theorem Matrix4x4.Multiply_Inverse_eq_Identity_witness :
    (Float.Tolerance : ℝ) ≤
        (Matrix4x4.CreateScale 2 4 5 : Matrix4x4 ℝ).Determinant
          * (Matrix4x4.CreateScale 2 4 5 : Matrix4x4 ℝ).Determinant ∧
      (Matrix4x4.CreateScale 2 4 5 : Matrix4x4 ℝ).Multiply
          (Matrix4x4.CreateScale 2 4 5 : Matrix4x4 ℝ).Inverse = Matrix4x4.Identity ∧
      (Matrix4x4.CreateScale 2 4 5 : Matrix4x4 ℝ).Inverse.Multiply
          (Matrix4x4.CreateScale 2 4 5 : Matrix4x4 ℝ) = Matrix4x4.Identity :=
  have h : (Float.Tolerance : ℝ) ≤
      (Matrix4x4.CreateScale 2 4 5 : Matrix4x4 ℝ).Determinant
        * (Matrix4x4.CreateScale 2 4 5 : Matrix4x4 ℝ).Determinant := by
    norm_num [Float.Tolerance, Matrix4x4.Determinant, Matrix4x4.CreateScale]
  ⟨h, Matrix4x4.Multiply_Inverse_eq_Identity _ h⟩

/-- Claim C2 as stated fails: the uniform scale by 20, `CreateScale(20, 20, 20)`, has
determinant 8000, which is not nearly zero, yet its inverse has determinant 1/8000, which
the guard of `Inverse` treats as zero, so inverting twice returns the `Zero` matrix. -/
theorem Matrix4x4.Inverse_Inverse_counterexample :
    (Float.Tolerance : ℝ) ≤
        (Matrix4x4.CreateScale 20 20 20 : Matrix4x4 ℝ).Determinant
          * (Matrix4x4.CreateScale 20 20 20 : Matrix4x4 ℝ).Determinant ∧
      (Matrix4x4.CreateScale 20 20 20 : Matrix4x4 ℝ).Inverse.Inverse = Matrix4x4.Zero ∧
      (Matrix4x4.CreateScale 20 20 20 : Matrix4x4 ℝ).Inverse.Inverse
        ≠ Matrix4x4.CreateScale 20 20 20 := by
  have hd : (Matrix4x4.CreateScale 20 20 20 : Matrix4x4 ℝ).Determinant = 8000 := by
    norm_num [Matrix4x4.Determinant, Matrix4x4.CreateScale]
  have h0 : NearlyZero (Matrix4x4.CreateScale 20 20 20 : Matrix4x4 ℝ).Determinant = false := by
    rw [hd, NearlyZero_eq_false_iff]; norm_num [Float.Tolerance]
  have h1 : NearlyZero (Matrix4x4.CreateScale 20 20 20 : Matrix4x4 ℝ).Inverse.Determinant
      = true := by
    rw [Matrix4x4.Determinant_Inverse _ h0, hd, NearlyZero_eq_true_iff]
    norm_num [Float.Tolerance]
  have hz := Matrix4x4.Inverse_of_NearlyZero _ h1
  refine ⟨by rw [hd]; norm_num [Float.Tolerance], hz, ?_⟩
  rw [hz]
  intro h
  have := congrArg Matrix4x4.M11 h
  norm_num [Matrix4x4.Zero, Matrix4x4.CreateScale] at this

/-- Claim C2, amended. For every matrix `M` whose determinant `d` and whose reciprocal
`1 / d` are both not nearly zero (`Tolerance <= d * d` and `Tolerance <= (1/d) * (1/d)`),
`Inverse(Inverse(M))` equals `M`. -/
theorem Matrix4x4.Inverse_Inverse_eq_self (M : Matrix4x4 F)
    (h : Float.Tolerance ≤ M.Determinant * M.Determinant)
    (hinv : Float.Tolerance ≤ (1 / M.Determinant) * (1 / M.Determinant)) :
    M.Inverse.Inverse = M :=
  Matrix4x4.Inverse_Inverse_aux M ((NearlyZero_eq_false_iff _).mpr h)
    ((NearlyZero_eq_false_iff _).mpr hinv)

/-- Claim C2, amended, at the scale matrix `CreateScale(2, 4, 5)` (determinant 40). -/
theorem Matrix4x4.Inverse_Inverse_eq_self_witness :
    (Matrix4x4.CreateScale 2 4 5 : Matrix4x4 ℝ).Determinant = 40 ∧
      (Matrix4x4.CreateScale 2 4 5 : Matrix4x4 ℝ).Inverse.Inverse
        = Matrix4x4.CreateScale 2 4 5 := by
  have hd : (Matrix4x4.CreateScale 2 4 5 : Matrix4x4 ℝ).Determinant = 40 := by
    norm_num [Matrix4x4.Determinant, Matrix4x4.CreateScale]
  exact ⟨hd, Matrix4x4.Inverse_Inverse_eq_self _ (by rw [hd]; norm_num [Float.Tolerance])
    (by rw [hd]; norm_num [Float.Tolerance])⟩

/-- Claim C3. `Inverse(m)` is the `Zero` matrix exactly when the determinant `d` of `m`
satisfies `NearlyZero(d)`, which is `d * d < 0.000001`; for every other `m` it is the
adjugate of `m` with each entry multiplied by `1 / d`. -/
theorem Matrix4x4.Inverse_eq_Zero_iff_and_adjugate (m : Matrix4x4 F) :
    (NearlyZero m.Determinant = true ↔ m.Determinant * m.Determinant < 0.000001) ∧
    (m.Inverse = Matrix4x4.Zero ↔ NearlyZero m.Determinant = true) ∧
    (NearlyZero m.Determinant = false →
      m.Inverse = m.specAdjugate.MultiplyFloat (1 / m.Determinant)) := by
  refine ⟨by simp [NearlyZero, Float.Tolerance], ⟨fun hz => ?_, Matrix4x4.Inverse_of_NearlyZero m⟩,
    fun h => ?_⟩
  · by_contra hn
    exact Matrix4x4.Inverse_ne_Zero m (by simpa using hn) hz
  · apply Matrix4x4.toMatrix_injective
    rw [Matrix4x4.toMatrix_Inverse m h]
    ext i j
    fin_cases i <;> fin_cases j <;>
      simp [Matrix4x4.toMatrix, Matrix4x4.MultiplyFloat, Matrix4x4.specAdjugate,
        Matrix4x4.ofMatrix, mul_comm]

/-- Claim C3 at the scale matrix `CreateScale(2, 4, 5)`, which passes the guard, and at the
`Zero` matrix, which does not. -/
theorem Matrix4x4.Inverse_eq_Zero_iff_and_adjugate_witness :
    NearlyZero (Matrix4x4.CreateScale 2 4 5 : Matrix4x4 ℝ).Determinant = false ∧
      (Matrix4x4.CreateScale 2 4 5 : Matrix4x4 ℝ).Inverse
        = (Matrix4x4.CreateScale 2 4 5 : Matrix4x4 ℝ).specAdjugate.MultiplyFloat
            (1 / (Matrix4x4.CreateScale 2 4 5 : Matrix4x4 ℝ).Determinant) ∧
      (Matrix4x4.Zero : Matrix4x4 ℝ).Inverse = Matrix4x4.Zero := by
  have h : NearlyZero (Matrix4x4.CreateScale 2 4 5 : Matrix4x4 ℝ).Determinant = false := by
    norm_num [NearlyZero, Float.Tolerance, Matrix4x4.Determinant, Matrix4x4.CreateScale]
  have h0 : NearlyZero (Matrix4x4.Zero : Matrix4x4 ℝ).Determinant = true := by
    norm_num [NearlyZero, Float.Tolerance, Matrix4x4.Determinant, Matrix4x4.Zero]
  exact ⟨h, (Matrix4x4.Inverse_eq_Zero_iff_and_adjugate _).2.2 h,
    (Matrix4x4.Inverse_eq_Zero_iff_and_adjugate _).2.1.mpr h0⟩

/-- Claim C4. For every unit quaternion `q`,
`Quaternion::CreateFromMatrix(Matrix4x4::CreateFromQuaternion(q))` is `q` or is `-q`
(all four components negated). -/
theorem Quaternion.CreateFromMatrix_CreateFromQuaternion (q : Quaternion ℝ)
    (h : q.LengthSquared = 1) :
    Quaternion.CreateFromMatrix (Matrix4x4.CreateFromQuaternion q) = q ∨
      Quaternion.CreateFromMatrix (Matrix4x4.CreateFromQuaternion q) = q.Negate :=
  Quaternion.CreateFromMatrix_CreateFromQuaternion_aux q h

/-- Claim C4 at the half turn about the Y axis, `(0, 1, 0, 0)`, whose matrix has a
negative trace. -/
theorem Quaternion.CreateFromMatrix_CreateFromQuaternion_witness :
    (⟨0, 1, 0, 0⟩ : Quaternion ℝ).LengthSquared = 1 ∧
      (Quaternion.CreateFromMatrix (Matrix4x4.CreateFromQuaternion ⟨0, 1, 0, 0⟩)
          = (⟨0, 1, 0, 0⟩ : Quaternion ℝ) ∨
        Quaternion.CreateFromMatrix (Matrix4x4.CreateFromQuaternion ⟨0, 1, 0, 0⟩)
          = (⟨0, 1, 0, 0⟩ : Quaternion ℝ).Negate) :=
  have h : (⟨0, 1, 0, 0⟩ : Quaternion ℝ).LengthSquared = 1 := by
    norm_num [Quaternion.LengthSquared]
  ⟨h, Quaternion.CreateFromMatrix_CreateFromQuaternion _ h⟩

/-- Claim C5 as stated fails twice. With scale `(-1, 1, 1)`, whose components are not
nearly zero, `Decompose(CreateSRT(0, Identity, s))` does not return the scale `s`; with scale
`(0.01, 1, 1)`, whose components are not nearly zero either, it returns `false`. -/
theorem Matrix4x4.Decompose_CreateSRT_counterexample :
    ((Quaternion.Identity : Quaternion ℝ).LengthSquared = 1 ∧
      NearlyZero (-1 : ℝ) = false ∧ NearlyZero (1 : ℝ) = false ∧
      (Matrix4x4.CreateSRT ⟨0, 0, 0⟩ Quaternion.Identity ⟨-1, 1, 1⟩).Decompose.outScale
        ≠ (⟨-1, 1, 1⟩ : Vector3 ℝ)) ∧
    (NearlyZero (0.01 : ℝ) = false ∧
      (Matrix4x4.CreateSRT ⟨0, 0, 0⟩ Quaternion.Identity
        (⟨0.01, 1, 1⟩ : Vector3 ℝ)).Decompose.success = false) := by
  refine ⟨⟨by norm_num [Quaternion.LengthSquared, Quaternion.Identity],
    by norm_num [NearlyZero, Float.Tolerance], by norm_num [NearlyZero, Float.Tolerance], ?_⟩,
    by norm_num [NearlyZero, Float.Tolerance], ?_⟩
  · intro h
    have hX := congrArg Vector3.X h
    rw [Matrix4x4.CreateSRT_eq] at hX
    norm_num [Matrix4x4.Decompose, Matrix4x4.CreateFromQuaternion, Quaternion.Identity,
      NearlyZero, Float.Tolerance, Sqrt] at hX
  · rw [Matrix4x4.CreateSRT_eq]
    norm_num [Matrix4x4.Decompose, Matrix4x4.CreateFromQuaternion, Quaternion.Identity,
      NearlyZero, Float.Tolerance]

/-- Claim C5, amended. For every translation `t`, every unit quaternion `r` and every scale
vector `s` whose three components are positive and have squares that are not nearly zero
(`NearlyZero(s.X * s.X)` is false, and so for `Y` and `Z`), `Decompose(CreateSRT(t, r, s))`
returns `true` with `outTranslation = t`, `outScale = s`, and `outOrientation` equal to `r`
or to `-r`. -/
theorem Matrix4x4.Decompose_CreateSRT (t : Vector3 ℝ) (r : Quaternion ℝ) (s : Vector3 ℝ)
    (hr : r.LengthSquared = 1) (hx : 0 < s.X) (hy : 0 < s.Y) (hz : 0 < s.Z)
    (zx : NearlyZero (s.X * s.X) = false) (zy : NearlyZero (s.Y * s.Y) = false)
    (zz : NearlyZero (s.Z * s.Z) = false) :
    (Matrix4x4.CreateSRT t r s).Decompose.success = true ∧
    (Matrix4x4.CreateSRT t r s).Decompose.outTranslation = t ∧
    (Matrix4x4.CreateSRT t r s).Decompose.outScale = s ∧
    ((Matrix4x4.CreateSRT t r s).Decompose.outOrientation = r ∨
      (Matrix4x4.CreateSRT t r s).Decompose.outOrientation = r.Negate) :=
  Matrix4x4.Decompose_CreateSRT_aux t r s hr hx hy hz zx zy zz

/-- Claim C5, amended, at translation `(1, 2, 3)`, the unit quaternion `(3/5, 0, 4/5, 0)`
and scale `(2, 3, 4)`. -/
theorem Matrix4x4.Decompose_CreateSRT_witness :
    (Matrix4x4.CreateSRT ⟨1, 2, 3⟩ ⟨3 / 5, 0, 4 / 5, 0⟩ ⟨2, 3, 4⟩).Decompose.success = true ∧
    (Matrix4x4.CreateSRT ⟨1, 2, 3⟩ ⟨3 / 5, 0, 4 / 5, 0⟩ ⟨2, 3, 4⟩).Decompose.outTranslation
      = ⟨1, 2, 3⟩ ∧
    (Matrix4x4.CreateSRT ⟨1, 2, 3⟩ ⟨3 / 5, 0, 4 / 5, 0⟩ ⟨2, 3, 4⟩).Decompose.outScale
      = ⟨2, 3, 4⟩ ∧
    ((Matrix4x4.CreateSRT ⟨1, 2, 3⟩ ⟨3 / 5, 0, 4 / 5, 0⟩ ⟨2, 3, 4⟩).Decompose.outOrientation
        = ⟨3 / 5, 0, 4 / 5, 0⟩ ∨
      (Matrix4x4.CreateSRT ⟨1, 2, 3⟩ ⟨3 / 5, 0, 4 / 5, 0⟩ ⟨2, 3, 4⟩).Decompose.outOrientation
        = (⟨3 / 5, 0, 4 / 5, 0⟩ : Quaternion ℝ).Negate) :=
  Matrix4x4.Decompose_CreateSRT ⟨1, 2, 3⟩ ⟨3 / 5, 0, 4 / 5, 0⟩ ⟨2, 3, 4⟩
    (by norm_num [Quaternion.LengthSquared]) (by norm_num) (by norm_num) (by norm_num)
    (by norm_num [NearlyZero, Float.Tolerance]) (by norm_num [NearlyZero, Float.Tolerance])
    (by norm_num [NearlyZero, Float.Tolerance])

/-- Claim C6. `Decompose(m, ...)` returns `false` exactly when the squared length of the
xyz part of at least one of the first three rows of `m` is `NearlyZero`; in that case
`outScale = (1,1,1)`, `outOrientation = (0,0,0,1)` and `outTranslation = (M41, M42, M43)`.
When it returns `true`, `outScale` holds the lengths of the three rows and
`outTranslation = (M41, M42, M43)`. -/
theorem Matrix4x4.Decompose_spec (m : Matrix4x4 ℝ) :
    (m.Decompose.success = false ↔
      (NearlyZero (Vector3.LengthSquared ⟨m.M11, m.M12, m.M13⟩) = true ∨
       NearlyZero (Vector3.LengthSquared ⟨m.M21, m.M22, m.M23⟩) = true ∨
       NearlyZero (Vector3.LengthSquared ⟨m.M31, m.M32, m.M33⟩) = true)) ∧
    (m.Decompose.success = false →
      m.Decompose.outScale = ⟨1, 1, 1⟩ ∧ m.Decompose.outOrientation = ⟨0, 0, 0, 1⟩ ∧
      m.Decompose.outTranslation = ⟨m.M41, m.M42, m.M43⟩) ∧
    (m.Decompose.success = true →
      m.Decompose.outScale =
        ⟨Sqrt (Vector3.LengthSquared ⟨m.M11, m.M12, m.M13⟩),
         Sqrt (Vector3.LengthSquared ⟨m.M21, m.M22, m.M23⟩),
         Sqrt (Vector3.LengthSquared ⟨m.M31, m.M32, m.M33⟩)⟩ ∧
      m.Decompose.outTranslation = ⟨m.M41, m.M42, m.M43⟩) := by
  simp only [Matrix4x4.Decompose, Vector3.LengthSquared]
  split_ifs with h
  · simp only [Bool.or_eq_true] at h
    refine ⟨⟨fun _ => by tauto, fun _ => rfl⟩, fun _ => ⟨rfl, rfl, rfl⟩, fun h' => by simp at h'⟩
  · simp only [Bool.or_eq_true] at h
    refine ⟨⟨fun h' => by simp at h', fun h' => by tauto⟩, fun h' => by simp at h', fun _ => ⟨rfl, rfl⟩⟩

/-- Claim C6 at the `Zero` matrix (failure, scale defaulting to one) and at the `Identity`
matrix (success). -/
theorem Matrix4x4.Decompose_spec_witness :
    (Matrix4x4.Zero : Matrix4x4 ℝ).Decompose.success = false ∧
    (Matrix4x4.Zero : Matrix4x4 ℝ).Decompose.outScale = ⟨1, 1, 1⟩ ∧
    (Matrix4x4.Identity : Matrix4x4 ℝ).Decompose.success = true := by
  have h0 : NearlyZero (Vector3.LengthSquared (⟨0, 0, 0⟩ : Vector3 ℝ)) = true := by
    norm_num [NearlyZero, Vector3.LengthSquared, Float.Tolerance]
  have h1 : (Matrix4x4.Zero : Matrix4x4 ℝ).Decompose.success = false :=
    (Matrix4x4.Decompose_spec Matrix4x4.Zero).1.mpr (Or.inl h0)
  refine ⟨h1, ((Matrix4x4.Decompose_spec Matrix4x4.Zero).2.1 h1).1, ?_⟩
  have h2 := (Matrix4x4.Decompose_spec (Matrix4x4.Identity : Matrix4x4 ℝ)).1
  by_contra hc
  simp only [Bool.not_eq_true] at hc
  have := h2.mp hc
  norm_num [NearlyZero, Vector3.LengthSquared, Float.Tolerance, Matrix4x4.Identity] at this

/-- Claim C7 at the input where the code departs from it: for the unit quaternion
`(0,0,0,1)` and weight `0.5`, `Slerp(q, q, 0.5)` is `(0, 0, 0, sqrt 2)`, not `q`. The dot
product is `1`, `ACos(1)` returns `Trig::PiOverTwo` instead of `0`, so the early exit for a
zero angle is not taken. -/
theorem Quaternion.Slerp_Identity_Identity_half :
    (Quaternion.Identity : Quaternion ℝ).LengthSquared = 1 ∧
    Quaternion.Slerp Quaternion.Identity Quaternion.Identity 0.5 = ⟨0, 0, 0, Real.sqrt 2⟩ ∧
    Quaternion.Slerp Quaternion.Identity Quaternion.Identity 0.5 ≠ Quaternion.Identity := by
  have hs : Quaternion.Slerp Quaternion.Identity Quaternion.Identity 0.5
      = ⟨0, 0, 0, Real.sqrt 2⟩ := by
    have e1 : Real.pi / 2 - 1 / 2 * (Real.pi / 2) = Real.pi / 4 := by ring
    have e2 : (1 / 2 : ℝ) * (Real.pi / 2) = Real.pi / 4 := by ring
    simp only [Quaternion.Slerp, Quaternion.Dot, Quaternion.Identity, ACos, Trig.PiOverTwo, Sin]
    norm_num [pi_div_two_not_NearlyZero]
    rw [e1, e2]
    simp only [Real.sin_pi_div_four]
    ring
  refine ⟨by norm_num [Quaternion.LengthSquared, Quaternion.Identity], hs, ?_⟩
  rw [hs]
  intro h
  have hW := congrArg Quaternion.W h
  simp only [Quaternion.Identity] at hW
  have : Real.sqrt 2 * Real.sqrt 2 = 2 := Real.mul_self_sqrt (by norm_num)
  rw [hW] at this
  norm_num at this

/-- Claim C8. For all unit quaternions `q1`, `q2` that are neither aligned nor antipodal
(`NearlyEqual(Abs(Dot(q1, q2)), 1)` is false), `Slerp(q1, q2, 0)` is `q1` and
`Slerp(q1, q2, 1)` is `q2`. -/
theorem Quaternion.Slerp_zero_one (q1 q2 : Quaternion ℝ) (h1 : q1.LengthSquared = 1)
    (h2 : q2.LengthSquared = 1) (hne : NearlyEqual (Abs (q1.Dot q2)) 1 = false) :
    Quaternion.Slerp q1 q2 0 = q1 ∧ Quaternion.Slerp q1 q2 1 = q2 := by
  have hb := Quaternion.abs_Dot_le q1 q2 h1 h2 hne
  rw [abs_le] at hb
  have hlo : -1 < q1.Dot q2 := by linarith [hb.1]
  have hhi : q1.Dot q2 < 1 := by linarith [hb.2]
  have hsq := one_sub_sq_le_arccos_sq hlo hhi
  have hz : NearlyZero (Real.arccos (q1.Dot q2)) = false := by
    rw [NearlyZero_eq_false_iff]
    unfold Float.Tolerance
    nlinarith [hb.1, hb.2]
  have hs := (sin_arccos_pos hlo hhi).ne'
  constructor
  · rw [Quaternion.Slerp_of_arccos q1 q2 0 hlo hhi hz]
    ext <;> simp only [] <;> field_simp
  · rw [Quaternion.Slerp_of_arccos q1 q2 1 hlo hhi hz]
    ext <;> simp only [] <;> field_simp

/-- Claim C8 at the identity `(0,0,0,1)` and the half turn about X, `(1,0,0,0)`. -/
theorem Quaternion.Slerp_zero_one_witness :
    Quaternion.Slerp (⟨0, 0, 0, 1⟩ : Quaternion ℝ) ⟨1, 0, 0, 0⟩ 0 = ⟨0, 0, 0, 1⟩ ∧
      Quaternion.Slerp (⟨0, 0, 0, 1⟩ : Quaternion ℝ) ⟨1, 0, 0, 0⟩ 1 = ⟨1, 0, 0, 0⟩ :=
  Quaternion.Slerp_zero_one ⟨0, 0, 0, 1⟩ ⟨1, 0, 0, 0⟩
    (by norm_num [Quaternion.LengthSquared]) (by norm_num [Quaternion.LengthSquared])
    (by norm_num [NearlyEqual, NearlyZero, Abs, Quaternion.Dot, Float.Tolerance])

/-- Claim C9. `Slerp` moves along the geodesic at constant angular velocity: for every unit
axis `a`, every angle `phi` with `0 < phi < 2 * pi` whose half is not nearly zero, and every
weight `t`, `Slerp(Identity, CreateFromAxisAngle(a, phi), t)` is
`CreateFromAxisAngle(a, t * phi)`. The spec's instance is the witness below. -/
theorem Quaternion.Slerp_Identity_CreateFromAxisAngle (a : Vector3 ℝ) (phi t : ℝ)
    (_ha : a.LengthSquared = 1) (h0 : 0 < phi) (h2pi : phi < 2 * Real.pi)
    (hz : NearlyZero (phi / 2) = false) :
    Quaternion.Slerp Quaternion.Identity (Quaternion.CreateFromAxisAngle a phi) t
      = Quaternion.CreateFromAxisAngle a (t * phi) := by
  have hθ0 : 0 < phi * 0.5 := by norm_num; linarith
  have hθπ : phi * 0.5 < Real.pi := by norm_num; linarith
  have hdot : (Quaternion.Identity : Quaternion ℝ).Dot (Quaternion.CreateFromAxisAngle a phi)
      = Real.cos (phi * 0.5) := by
    simp [Quaternion.Dot, Quaternion.Identity, Quaternion.CreateFromAxisAngle, SinCos]
  have hhi : Real.cos (phi * 0.5) < 1 := by
    have := Real.cos_lt_cos_of_nonneg_of_le_pi (le_refl 0) hθπ.le hθ0
    simpa using this
  have hlo : -1 < Real.cos (phi * 0.5) := by
    have := Real.cos_lt_cos_of_nonneg_of_le_pi hθ0.le (le_refl Real.pi) hθπ
    simpa using this
  have harc : Real.arccos (Real.cos (phi * 0.5)) = phi * 0.5 :=
    Real.arccos_cos hθ0.le hθπ.le
  have hz' : NearlyZero (phi * 0.5) = false := by
    rw [← hz]; congr 1; ring
  have hs : Real.sin (phi * 0.5) ≠ 0 := (Real.sin_pos_of_pos_of_lt_pi hθ0 hθπ).ne'
  rw [Quaternion.Slerp_of_arccos _ _ t (by rw [hdot]; exact hlo) (by rw [hdot]; exact hhi)
    (by rw [hdot, harc]; exact hz'), hdot, harc]
  have e : t * phi * 0.5 = t * (phi * 0.5) := by ring
  simp only [Quaternion.Identity, Quaternion.CreateFromAxisAngle, SinCos, e]
  ext
  · simp only []; field_simp; ring
  · simp only []; field_simp; ring
  · simp only []; field_simp; ring
  · simp only []
    rw [Real.sin_sub]
    field_simp
    ring

/-- Claim C9 at the spec's instance: `Slerp((0,0,0,1), CreateFromAxisAngle((0,1,0), pi/2),
0.5)` is the `pi / 4` rotation about Y, `(0, sin(pi/8), 0, cos(pi/8))`. -/
theorem Quaternion.Slerp_Identity_CreateFromAxisAngle_witness :
    Quaternion.Slerp (⟨0, 0, 0, 1⟩ : Quaternion ℝ)
        (Quaternion.CreateFromAxisAngle ⟨0, 1, 0⟩ (Real.pi / 2)) 0.5
      = ⟨0, Real.sin (Real.pi / 8), 0, Real.cos (Real.pi / 8)⟩ := by
  have h := Quaternion.Slerp_Identity_CreateFromAxisAngle ⟨0, 1, 0⟩ (Real.pi / 2) 0.5
    (by norm_num [Vector3.LengthSquared]) (by positivity) (by linarith [Real.pi_pos])
    (by
      rw [NearlyZero_eq_false_iff]
      have := Real.pi_gt_three
      unfold Float.Tolerance
      nlinarith)
  have e : (0.5 : ℝ) * (Real.pi / 2) * 0.5 = Real.pi / 8 := by ring
  simp only [Quaternion.Identity] at h
  rw [h]
  simp [Quaternion.CreateFromAxisAngle, SinCos, e]

/-- Claim C10. For every unit quaternion `q`, `Inverse(Inverse(q))` is `q` and
`Multiply(q, Inverse(q))` is the identity quaternion `(0,0,0,1)`. -/
theorem Quaternion.Inverse_Inverse_and_Multiply_Inverse (q : Quaternion F)
    (h : q.LengthSquared = 1) :
    q.Inverse.Inverse = q ∧ q.Multiply q.Inverse = Quaternion.Identity := by
  obtain ⟨x, y, z, w⟩ := q
  simp only [Quaternion.LengthSquared] at h
  refine ⟨by simp [Quaternion.Inverse], ?_⟩
  simp only [Quaternion.Inverse, Quaternion.Multiply, Quaternion.Identity]
  ext
  · simp only []; ring
  · simp only []; ring
  · simp only []; ring
  · simp only []; linear_combination h

/-- Claim C10 at the unit quaternion `(3/5, 0, 4/5, 0)`. -/
theorem Quaternion.Inverse_Inverse_and_Multiply_Inverse_witness :
    (⟨3 / 5, 0, 4 / 5, 0⟩ : Quaternion ℝ).LengthSquared = 1 ∧
      (⟨3 / 5, 0, 4 / 5, 0⟩ : Quaternion ℝ).Inverse.Inverse = ⟨3 / 5, 0, 4 / 5, 0⟩ ∧
      (⟨3 / 5, 0, 4 / 5, 0⟩ : Quaternion ℝ).Multiply (⟨3 / 5, 0, 4 / 5, 0⟩ : Quaternion ℝ).Inverse
        = Quaternion.Identity :=
  have h : (⟨3 / 5, 0, 4 / 5, 0⟩ : Quaternion ℝ).LengthSquared = 1 := by
    norm_num [Quaternion.LengthSquared]
  ⟨h, Quaternion.Inverse_Inverse_and_Multiply_Inverse _ h⟩

/-- Claim C11 at an input where the code departs from it. The matrix with upper-left rows
`(1,0,0)`, `(0,1,0)`, `(3,0,4)` has linearly independent rows (determinant 4), and
`Orthonormalize` returns the rows `(1,0,0)`, `(0,1,0)`, `(3/5,0,4/5)`: the third row only loses
its projection on the second, so the first and third rows have dot product `3/5`, not `0`. -/
theorem Matrix4x4.Orthonormalize_rows_not_orthogonal :
    (⟨1, 0, 0, 0, 0, 1, 0, 0, 3, 0, 4, 0, 0, 0, 0, 1⟩ : Matrix4x4 ℝ).Determinant = 4 ∧
    (⟨1, 0, 0, 0, 0, 1, 0, 0, 3, 0, 4, 0, 0, 0, 0, 1⟩ : Matrix4x4 ℝ).Orthonormalize
      = ⟨1, 0, 0, 0, 0, 1, 0, 0, 3 / 5, 0, 4 / 5, 0, 0, 0, 0, 1⟩ ∧
    Vector3.Dot
      ⟨(⟨1, 0, 0, 0, 0, 1, 0, 0, 3, 0, 4, 0, 0, 0, 0, 1⟩ : Matrix4x4 ℝ).Orthonormalize.M11,
       (⟨1, 0, 0, 0, 0, 1, 0, 0, 3, 0, 4, 0, 0, 0, 0, 1⟩ : Matrix4x4 ℝ).Orthonormalize.M12,
       (⟨1, 0, 0, 0, 0, 1, 0, 0, 3, 0, 4, 0, 0, 0, 0, 1⟩ : Matrix4x4 ℝ).Orthonormalize.M13⟩
      ⟨(⟨1, 0, 0, 0, 0, 1, 0, 0, 3, 0, 4, 0, 0, 0, 0, 1⟩ : Matrix4x4 ℝ).Orthonormalize.M31,
       (⟨1, 0, 0, 0, 0, 1, 0, 0, 3, 0, 4, 0, 0, 0, 0, 1⟩ : Matrix4x4 ℝ).Orthonormalize.M32,
       (⟨1, 0, 0, 0, 0, 1, 0, 0, 3, 0, 4, 0, 0, 0, 0, 1⟩ : Matrix4x4 ℝ).Orthonormalize.M33⟩
      = 3 / 5 := by
  have h25 : Real.sqrt 25 = 5 := by
    rw [show (25 : ℝ) = 5 * 5 by norm_num, Real.sqrt_mul_self (by norm_num)]
  have hO : (⟨1, 0, 0, 0, 0, 1, 0, 0, 3, 0, 4, 0, 0, 0, 0, 1⟩ : Matrix4x4 ℝ).Orthonormalize
      = ⟨1, 0, 0, 0, 0, 1, 0, 0, 3 / 5, 0, 4 / 5, 0, 0, 0, 0, 1⟩ := by
    simp only [Matrix4x4.Orthonormalize, Vector3.Normalize, Vector3.LengthSquared,
      Vector3.MultiplyFloat, Vector3.Subtract, Vector3.Dot, InvSqrt]
    norm_num [h25]
  refine ⟨by norm_num [Matrix4x4.Determinant], hO, ?_⟩
  rw [hO]
  norm_num [Vector3.Dot]

/-- Claim C12. Quaternion composition is post-multiplication: for all unit quaternions `q1`,
`q2` and every `Vector3` `v`, `Transform(v, Multiply(q1, q2))` is
`Transform(Transform(v, q2), q1)`: the product applies `q2` first and then `q1`. -/
theorem Vector3.TransformQuaternion_Multiply (q1 q2 : Quaternion F) (v : Vector3 F)
    (h1 : q1.LengthSquared = 1) (h2 : q2.LengthSquared = 1) :
    v.TransformQuaternion (q1.Multiply q2)
      = (v.TransformQuaternion q2).TransformQuaternion q1 := by
  have h12 : (q1.Multiply q2).LengthSquared = 1 := by
    rw [Quaternion.LengthSquared_Multiply_aux, h1, h2, mul_one]
  rw [Vector3.TransformQuaternion_eq_specRotate _ _ h12, Vector3.specRotate_Multiply,
    Vector3.TransformQuaternion_eq_specRotate _ _ h2,
    Vector3.TransformQuaternion_eq_specRotate _ _ h1]

/-- Claim C12 at `q1 = (3/5, 0, 4/5, 0)`, `q2 = (0, 5/13, 0, 12/13)` and `v = (1, 2, 3)`. -/
theorem Vector3.TransformQuaternion_Multiply_witness :
    (⟨1, 2, 3⟩ : Vector3 ℝ).TransformQuaternion
        ((⟨3 / 5, 0, 4 / 5, 0⟩ : Quaternion ℝ).Multiply ⟨0, 5 / 13, 0, 12 / 13⟩)
      = ((⟨1, 2, 3⟩ : Vector3 ℝ).TransformQuaternion ⟨0, 5 / 13, 0, 12 / 13⟩).TransformQuaternion
          ⟨3 / 5, 0, 4 / 5, 0⟩ :=
  Vector3.TransformQuaternion_Multiply _ _ _ (by norm_num [Quaternion.LengthSquared])
    (by norm_num [Quaternion.LengthSquared])

/-- Claim C13. Matrix composition is pre-multiplication: for all matrices `A`, `B` and every
`Vector4` `v`, `Transform(v, Multiply(A, B))` is `Transform(Transform(v, A), B)`; `Multiply`
is the standard row-by-column product, and `Transform` is the row vector times the matrix. -/
theorem Vector4.Transform_Multiply (A B : Matrix4x4 F) (v : Vector4 F) :
    v.Transform (A.Multiply B) = (v.Transform A).Transform B ∧
    (A.Multiply B).toMatrix = A.toMatrix * B.toMatrix ∧
    (v.Transform A).toVec = Matrix.vecMul v.toVec A.toMatrix := by
  refine ⟨?_, Matrix4x4.toMatrix_Multiply A B, Vector4.toVec_Transform v A⟩
  simp only [Vector4.Transform, Matrix4x4.Multiply]
  ext <;> simp only [] <;> ring

/-- Claim C14. For all angles `yaw`, `pitch`, `roll`,
`Matrix4x4::CreateFromYawPitchRoll(yaw, pitch, roll)` is
`Multiply(Multiply(CreateRotationY(yaw), CreateRotationX(pitch)), CreateRotationZ(roll))`. -/
theorem Matrix4x4.CreateFromYawPitchRoll_eq_Multiply (yaw pitch roll : ℝ) :
    Matrix4x4.CreateFromYawPitchRoll yaw pitch roll
      = ((Matrix4x4.CreateRotationY yaw).Multiply (Matrix4x4.CreateRotationX pitch)).Multiply
          (Matrix4x4.CreateRotationZ roll) := by
  simp only [Matrix4x4.CreateFromYawPitchRoll, Matrix4x4.CreateRotationX,
    Matrix4x4.CreateRotationY, Matrix4x4.CreateRotationZ, Matrix4x4.Multiply, SinCos]
  ext <;> simp only [] <;> ring

/-- Claim C15. For every translation `t`, quaternion `r` and scale `s`, `CreateSRT(t, r, s)`
is `Multiply(Multiply(CreateScale(s), CreateFromQuaternion(r)), CreateTranslation(t))`,
although the code patches the translation row instead of multiplying. -/
theorem Matrix4x4.CreateSRT_eq_Multiply (t : Vector3 F) (r : Quaternion F) (s : Vector3 F) :
    Matrix4x4.CreateSRT t r s
      = ((Matrix4x4.CreateScaleVector3 s).Multiply (Matrix4x4.CreateFromQuaternion r)).Multiply
          (Matrix4x4.CreateTranslationVector3 t) := by
  simp only [Matrix4x4.CreateSRT, Matrix4x4.Transform, Matrix4x4.Multiply,
    Matrix4x4.CreateScaleVector3, Matrix4x4.CreateScale, Matrix4x4.CreateFromQuaternion,
    Matrix4x4.CreateTranslationVector3, Matrix4x4.CreateTranslation]
  ext <;> simp only [] <;> ring

/-- Claim C16. `Quaternion::CreateFromMatrix` never divides by a near-zero term: for every
matrix `m`, rotation or not, the argument passed to `Sqrt` in the selected branch is at least
`1`, so is the square root `s` that divides `0.5`, and the four outputs are built from that
`s` alone. -/
theorem Quaternion.CreateFromMatrix_Sqrt_arg (m : Matrix4x4 ℝ) :
    1 ≤ Quaternion.CreateFromMatrixSqrtArg m ∧
    1 ≤ Sqrt (Quaternion.CreateFromMatrixSqrtArg m) ∧
    Quaternion.CreateFromMatrix m =
      (let s := Sqrt (Quaternion.CreateFromMatrixSqrtArg m)
       if m.M11 + m.M22 + m.M33 ≥ 0 then
         ⟨(m.M23 - m.M32) * (0.5 / s), (m.M31 - m.M13) * (0.5 / s), (m.M12 - m.M21) * (0.5 / s),
           s * 0.5⟩
       else if m.M11 > m.M22 ∧ m.M11 > m.M33 then
         ⟨s * 0.5, (m.M12 + m.M21) * (0.5 / s), (m.M13 + m.M31) * (0.5 / s),
           (m.M23 - m.M32) * (0.5 / s)⟩
       else if m.M22 > m.M33 then
         ⟨(m.M12 + m.M21) * (0.5 / s), s * 0.5, (m.M23 + m.M32) * (0.5 / s),
           (m.M31 - m.M13) * (0.5 / s)⟩
       else
         ⟨(m.M13 + m.M31) * (0.5 / s), (m.M23 + m.M32) * (0.5 / s), s * 0.5,
           (m.M12 - m.M21) * (0.5 / s)⟩) := by
  have h := Quaternion.one_le_CreateFromMatrixSqrtArg m
  refine ⟨h, ?_, ?_⟩
  · rw [Sqrt, Real.one_le_sqrt]; exact h
  · simp only [Quaternion.CreateFromMatrix, Quaternion.CreateFromMatrixSqrtArg]
    split_ifs <;> rfl

/-- Claim C17 as stated fails: with `m = CreateOrthographic(-1, 1, -1, 1, 0, 1)` the
`Vector3` transform of `(1,1,1)` by `m` is not `(1,1,1)` (its third component is `-1`). -/
theorem Vector3.Transform_CreateOrthographic_counterexample :
    (⟨1, 1, 1⟩ : Vector3 ℝ).Transform (Matrix4x4.CreateOrthographic (-1) 1 (-1) 1 0 1)
      ≠ ⟨1, 1, 1⟩ := by
  intro h
  have hz := congrArg Vector3.Z h
  norm_num [Vector3.Transform, Matrix4x4.CreateOrthographic] at hz

/-- Claim C17, amended. With `m = CreateOrthographic(-1, 1, -1, 1, 0, 1)` the `Vector3`
transform of `(0,0,0)` by `m` is `(0,0,0)` and the transform of `(1,1,1)` is `(1,1,-1)`; the
point that `m` sends to `(1,1,1)` is `(1,1,-1)`. -/
theorem Vector3.Transform_CreateOrthographic :
    (⟨0, 0, 0⟩ : Vector3 F).Transform (Matrix4x4.CreateOrthographic (-1) 1 (-1) 1 0 1)
      = ⟨0, 0, 0⟩ ∧
    (⟨1, 1, 1⟩ : Vector3 F).Transform (Matrix4x4.CreateOrthographic (-1) 1 (-1) 1 0 1)
      = ⟨1, 1, -1⟩ ∧
    (⟨1, 1, -1⟩ : Vector3 F).Transform (Matrix4x4.CreateOrthographic (-1) 1 (-1) 1 0 1)
      = ⟨1, 1, 1⟩ := by
  refine ⟨?_, ?_, ?_⟩ <;>
    · simp only [Vector3.Transform, Matrix4x4.CreateOrthographic]
      ext <;> norm_num

/-- Claim C18. A rotation about an axis leaves that axis fixed: for every angle `theta` and
each axis `a` among `(1,0,0)`, `(0,1,0)`, `(0,0,1)`, transforming `a` by
`CreateFromQuaternion(CreateFromAxisAngle(a, theta))` returns `a`, and so does transforming
`a` by the matching `CreateRotationX`, `CreateRotationY`, `CreateRotationZ`. -/
theorem Vector3.Transform_axis_rotation (theta : ℝ) :
    ((⟨1, 0, 0⟩ : Vector3 ℝ).Transform
        (Matrix4x4.CreateFromQuaternion (Quaternion.CreateFromAxisAngle ⟨1, 0, 0⟩ theta))
      = ⟨1, 0, 0⟩ ∧
     (⟨0, 1, 0⟩ : Vector3 ℝ).Transform
        (Matrix4x4.CreateFromQuaternion (Quaternion.CreateFromAxisAngle ⟨0, 1, 0⟩ theta))
      = ⟨0, 1, 0⟩ ∧
     (⟨0, 0, 1⟩ : Vector3 ℝ).Transform
        (Matrix4x4.CreateFromQuaternion (Quaternion.CreateFromAxisAngle ⟨0, 0, 1⟩ theta))
      = ⟨0, 0, 1⟩) ∧
    ((⟨1, 0, 0⟩ : Vector3 ℝ).Transform (Matrix4x4.CreateRotationX theta) = ⟨1, 0, 0⟩ ∧
     (⟨0, 1, 0⟩ : Vector3 ℝ).Transform (Matrix4x4.CreateRotationY theta) = ⟨0, 1, 0⟩ ∧
     (⟨0, 0, 1⟩ : Vector3 ℝ).Transform (Matrix4x4.CreateRotationZ theta) = ⟨0, 0, 1⟩) := by
  refine ⟨⟨?_, ?_, ?_⟩, ?_, ?_, ?_⟩ <;>
    · simp only [Vector3.Transform, Matrix4x4.CreateFromQuaternion,
        Quaternion.CreateFromAxisAngle, Matrix4x4.CreateRotationX, Matrix4x4.CreateRotationY,
        Matrix4x4.CreateRotationZ, SinCos]
      ext <;> simp

/-- Claim C19. For every matrix `m`, `Determinant(m)` is the determinant of the 4x4 matrix;
in particular `Determinant(Identity) = 1` and `Determinant(Zero) = 0`. -/
theorem Matrix4x4.Determinant_eq_standard (m : Matrix4x4 F) :
    m.Determinant = m.toMatrix.det ∧
    (Matrix4x4.Identity : Matrix4x4 F).Determinant = 1 ∧
    (Matrix4x4.Zero : Matrix4x4 F).Determinant = 0 := by
  refine ⟨Matrix4x4.Determinant_eq_det m, ?_, ?_⟩
  · simp [Matrix4x4.Determinant, Matrix4x4.Identity]
  · simp [Matrix4x4.Determinant, Matrix4x4.Zero]

/-- Claim C20. `CreatePerspective(fov, aspect, near, far)` sets `M22 = 1 / tan(fov / 2)` and
`M11 = M22 / aspect`; for `fov = pi / 2`, `aspect = 1`, `near = 1`, `far = 100` this gives
`M11 = M22 = 1`. -/
theorem Matrix4x4.CreatePerspective_scales (fov aspect near far : ℝ) :
    ((Matrix4x4.CreatePerspective fov aspect near far).M22 = 1 / Real.tan (fov / 2) ∧
     (Matrix4x4.CreatePerspective fov aspect near far).M11
       = (Matrix4x4.CreatePerspective fov aspect near far).M22 / aspect) ∧
    ((Matrix4x4.CreatePerspective (Real.pi / 2) 1 1 100).M11 = 1 ∧
     (Matrix4x4.CreatePerspective (Real.pi / 2) 1 1 100).M22 = 1) := by
  have e : fov * 0.5 = fov / 2 := by ring
  have e4 : Real.pi / 2 * 0.5 = Real.pi / 4 := by ring
  refine ⟨⟨?_, ?_⟩, ?_, ?_⟩
  · simp only [Matrix4x4.CreatePerspective, Tan, e]
  · simp only [Matrix4x4.CreatePerspective]
  · simp [Matrix4x4.CreatePerspective, Tan, e4, Real.tan_pi_div_four]
  · simp [Matrix4x4.CreatePerspective, Tan, e4, Real.tan_pi_div_four]

/-- Claim C21. For every quaternion `q`, `EulerAngles(q)` is
`EulerAngles(Matrix4x4::CreateFromQuaternion(q))`: the quaternion version computes the same
`M23`, takes the same branch and returns the same three angles. -/
theorem Quaternion.EulerAngles_eq_Matrix (q : Quaternion ℝ) :
    q.EulerAngles = (Matrix4x4.CreateFromQuaternion q).EulerAngles := by
  simp only [Quaternion.EulerAngles, Matrix4x4.EulerAngles, Matrix4x4.CreateFromQuaternion]

/-- Claim C22. At gimbal lock the extracted angles describe the same rotation: for all `yaw`
and `roll`, `EulerAngles(CreateFromYawPitchRoll(yaw, pi/2, roll))` has pitch `pi/2`, roll `0`
and a yaw equal to `yaw + roll` up to a multiple of `2 * pi`, and with pitch `-pi/2` it has
pitch `-pi/2`, roll `0` and a yaw equal to `yaw - roll` up to a multiple of `2 * pi` (the
result vector is `X` = pitch, `Y` = yaw, `Z` = roll). -/
theorem Matrix4x4.EulerAngles_gimbal_lock (yaw roll : ℝ) :
    ((Matrix4x4.CreateFromYawPitchRoll yaw (Real.pi / 2) roll).EulerAngles.X = Real.pi / 2 ∧
     (Matrix4x4.CreateFromYawPitchRoll yaw (Real.pi / 2) roll).EulerAngles.Z = 0 ∧
     ∃ k : ℤ, (Matrix4x4.CreateFromYawPitchRoll yaw (Real.pi / 2) roll).EulerAngles.Y
       = yaw + roll + k * (2 * Real.pi)) ∧
    ((Matrix4x4.CreateFromYawPitchRoll yaw (-(Real.pi / 2)) roll).EulerAngles.X
       = -(Real.pi / 2) ∧
     (Matrix4x4.CreateFromYawPitchRoll yaw (-(Real.pi / 2)) roll).EulerAngles.Z = 0 ∧
     ∃ k : ℤ, (Matrix4x4.CreateFromYawPitchRoll yaw (-(Real.pi / 2)) roll).EulerAngles.Y
       = yaw - roll + k * (2 * Real.pi)) := by
  have hp : (Matrix4x4.CreateFromYawPitchRoll yaw (Real.pi / 2) roll).EulerAngles
      = ⟨Real.pi / 2, ATan2 (1 * Real.sin (yaw + roll)) (1 * Real.cos (yaw + roll)), 0⟩ := by
    simp only [Matrix4x4.EulerAngles, Matrix4x4.CreateFromYawPitchRoll, SinCos,
      Real.sin_pi_div_two, NearlyEqual_self, if_true, Trig.PiOverTwo, Real.sin_add,
      Real.cos_add]
    congr 2 <;> ring
  have hm : (Matrix4x4.CreateFromYawPitchRoll yaw (-(Real.pi / 2)) roll).EulerAngles
      = ⟨-(Real.pi / 2), -ATan2 (1 * Real.sin (roll - yaw)) (1 * Real.cos (roll - yaw)), 0⟩ := by
    simp only [Matrix4x4.EulerAngles, Matrix4x4.CreateFromYawPitchRoll, SinCos, Real.sin_neg,
      Real.sin_pi_div_two, NearlyEqual_self, NearlyEqual_neg_one_one, if_true, if_false,
      Bool.false_eq_true, Trig.PiOverTwo, Real.sin_sub, Real.cos_sub]
    congr 3 <;> ring
  rw [hp, hm]
  refine ⟨⟨rfl, rfl, ?_⟩, rfl, rfl, ?_⟩
  · exact ATan2_sin_cos 1 (yaw + roll) one_pos
  · obtain ⟨k, hk⟩ := ATan2_sin_cos 1 (roll - yaw) one_pos
    refine ⟨-k, ?_⟩
    simp only [hk]
    push_cast
    ring

/-- Claim C23. For all unit quaternions `q1`, `q2` and every weight `t`, `Nlerp(q1, q2, t)`
is `Lerp(q1, q2, t')` with `t' = 2*k*t^3 - 3*k*t^2 + (1+k)*t` and
`k = 0.5069269 * (1 - 0.7878088 * Dot(q1,q2))^2`; `Nlerp(q1,q2,0) = q1` and
`Nlerp(q1,q2,1) = q2`. -/
theorem Quaternion.Nlerp_eq_Lerp (q1 q2 : Quaternion ℝ) (t : ℝ)
    (h1 : q1.LengthSquared = 1) (h2 : q2.LengthSquared = 1) :
    Quaternion.Nlerp q1 q2 t
      = Quaternion.Lerp q1 q2
          (2 * (0.5069269 * (1 - 0.7878088 * q1.Dot q2) ^ 2) * t ^ 3
            - 3 * (0.5069269 * (1 - 0.7878088 * q1.Dot q2) ^ 2) * t ^ 2
            + (1 + 0.5069269 * (1 - 0.7878088 * q1.Dot q2) ^ 2) * t) ∧
    Quaternion.Nlerp q1 q2 0 = q1 ∧ Quaternion.Nlerp q1 q2 1 = q2 := by
  refine ⟨?_, ?_, ?_⟩
  · have ht : 2 * (0.5069269 * (1 - 0.7878088 * q1.Dot q2) * (1 - 0.7878088 * q1.Dot q2))
          * (t * t * t)
        - 3 * (0.5069269 * (1 - 0.7878088 * q1.Dot q2) * (1 - 0.7878088 * q1.Dot q2)) * (t * t)
        + (1 + 0.5069269 * (1 - 0.7878088 * q1.Dot q2) * (1 - 0.7878088 * q1.Dot q2)) * t
        = 2 * (0.5069269 * (1 - 0.7878088 * q1.Dot q2) ^ 2) * t ^ 3
          - 3 * (0.5069269 * (1 - 0.7878088 * q1.Dot q2) ^ 2) * t ^ 2
          + (1 + 0.5069269 * (1 - 0.7878088 * q1.Dot q2) ^ 2) * t := by ring
    simp only [Quaternion.Nlerp, Quaternion.Lerp, ht]
  · have e : Quaternion.Nlerp q1 q2 0 = q1.Normalize := by
      simp [Quaternion.Nlerp, Phx.Math.Lerp]
    rw [e, Quaternion.Normalize_of_unit q1 h1]
  · have e : Quaternion.Nlerp q1 q2 1 = q2.Normalize := by
      simp only [Quaternion.Nlerp, Phx.Math.Lerp]
      congr 1
      ext <;> simp only [] <;> ring
    rw [e, Quaternion.Normalize_of_unit q2 h2]

/-- Claim C23 at the identity `(0,0,0,1)` and the half turn about X, `(1,0,0,0)`. -/
theorem Quaternion.Nlerp_eq_Lerp_witness :
    Quaternion.Nlerp (⟨0, 0, 0, 1⟩ : Quaternion ℝ) ⟨1, 0, 0, 0⟩ 0 = ⟨0, 0, 0, 1⟩ ∧
      Quaternion.Nlerp (⟨0, 0, 0, 1⟩ : Quaternion ℝ) ⟨1, 0, 0, 0⟩ 1 = ⟨1, 0, 0, 0⟩ :=
  (Quaternion.Nlerp_eq_Lerp ⟨0, 0, 0, 1⟩ ⟨1, 0, 0, 0⟩ 0
    (by norm_num [Quaternion.LengthSquared]) (by norm_num [Quaternion.LengthSquared])).2

/-- Claim C24. `Transpose` is safe in place: when the output is the same object as the input
(the member `Matrix4x4::Transpose`), the sequence of assignments leaves every entry `(i,j)`
equal to the original entry `(j,i)`, the same result as the out-of-place `Transpose(m, out)`
whatever `out` held before. -/
theorem Matrix4x4.TransposeMember_eq (m : Matrix4x4 F) :
    m.TransposeMember =
      ⟨m.M11, m.M21, m.M31, m.M41,
       m.M12, m.M22, m.M32, m.M42,
       m.M13, m.M23, m.M33, m.M43,
       m.M14, m.M24, m.M34, m.M44⟩ ∧
    ∀ out : Matrix4x4 F, m.TransposeMember = m.Transpose out := by
  constructor
  · rfl
  · intro out
    rfl

/-- Claim C25. For all `left != right`, `bottom != top` and `far > near >= 0`,
`CreateOrthographic(left, right, bottom, top, near, far)` sends the view-space corner
`(left, bottom, -near)` to `(-1, -1, 0)` and the corner `(right, top, -far)` to `(1, 1, 1)`
under the `Vector3` transform. -/
theorem Vector3.Transform_CreateOrthographic_corners (left right bottom top near far : F)
    (hlr : left ≠ right) (hbt : bottom ≠ top) (_hn : 0 ≤ near) (hnf : near < far) :
    (⟨left, bottom, -near⟩ : Vector3 F).Transform
        (Matrix4x4.CreateOrthographic left right bottom top near far) = ⟨-1, -1, 0⟩ ∧
    (⟨right, top, -far⟩ : Vector3 F).Transform
        (Matrix4x4.CreateOrthographic left right bottom top near far) = ⟨1, 1, 1⟩ := by
  have h1 : right - left ≠ 0 := sub_ne_zero.mpr (Ne.symm hlr)
  have h2 : left - right ≠ 0 := sub_ne_zero.mpr hlr
  have h3 : top - bottom ≠ 0 := sub_ne_zero.mpr (Ne.symm hbt)
  have h4 : bottom - top ≠ 0 := sub_ne_zero.mpr hbt
  have h5 : near - far ≠ 0 := sub_ne_zero.mpr hnf.ne
  simp only [Vector3.Transform, Matrix4x4.CreateOrthographic]
  constructor
  · ext
    · simp only []; field_simp; ring
    · simp only []; field_simp; ring
    · simp only []; field_simp
  · ext
    · simp only []; field_simp; ring
    · simp only []; field_simp; ring
    · simp only []; field_simp; ring

/-- Claim C25 at `CreateOrthographic(-1, 1, -1, 1, 0, 1)`. -/
theorem Vector3.Transform_CreateOrthographic_corners_witness :
    (⟨-1, -1, -0⟩ : Vector3 ℝ).Transform (Matrix4x4.CreateOrthographic (-1) 1 (-1) 1 0 1)
      = ⟨-1, -1, 0⟩ ∧
    (⟨1, 1, -1⟩ : Vector3 ℝ).Transform (Matrix4x4.CreateOrthographic (-1) 1 (-1) 1 0 1)
      = ⟨1, 1, 1⟩ :=
  Vector3.Transform_CreateOrthographic_corners (-1) 1 (-1) 1 0 1 (by norm_num) (by norm_num)
    (by norm_num) (by norm_num)

/-- Claim C26. For all `0 < near < far` and any `fov`, `aspect`, `x`, `y`: transforming the
`Vector4` `(x, y, -near, 1)` by `CreatePerspective(fov, aspect, near, far)` gives `z / w = 0`,
transforming `(x, y, -far, 1)` gives `z / w = 1`, and in both cases `w` is the negated
view-space `z` (`near`, respectively `far`). -/
theorem Vector4.Transform_CreatePerspective_depth (fov aspect near far x y : ℝ)
    (hn : 0 < near) (hnf : near < far) :
    ((⟨x, y, -near, 1⟩ : Vector4 ℝ).Transform
        (Matrix4x4.CreatePerspective fov aspect near far)).Z
      / ((⟨x, y, -near, 1⟩ : Vector4 ℝ).Transform
        (Matrix4x4.CreatePerspective fov aspect near far)).W = 0 ∧
    ((⟨x, y, -near, 1⟩ : Vector4 ℝ).Transform
        (Matrix4x4.CreatePerspective fov aspect near far)).W = near ∧
    ((⟨x, y, -far, 1⟩ : Vector4 ℝ).Transform
        (Matrix4x4.CreatePerspective fov aspect near far)).Z
      / ((⟨x, y, -far, 1⟩ : Vector4 ℝ).Transform
        (Matrix4x4.CreatePerspective fov aspect near far)).W = 1 ∧
    ((⟨x, y, -far, 1⟩ : Vector4 ℝ).Transform
        (Matrix4x4.CreatePerspective fov aspect near far)).W = far := by
  have h5 : near - far ≠ 0 := sub_ne_zero.mpr hnf.ne
  have hf : far ≠ 0 := (hn.trans hnf).ne'
  have hn0 : near ≠ 0 := hn.ne'
  simp only [Vector4.Transform, Matrix4x4.CreatePerspective]
  refine ⟨?_, ?_, ?_, ?_⟩
  · field_simp
  · ring
  · field_simp
    ring
  · ring

/-- Claim C26 at `CreatePerspective(pi/2, 1, 1, 100)` and `x = 2`, `y = 3`. -/
theorem Vector4.Transform_CreatePerspective_depth_witness :
    ((⟨2, 3, -1, 1⟩ : Vector4 ℝ).Transform
        (Matrix4x4.CreatePerspective (Real.pi / 2) 1 1 100)).Z
      / ((⟨2, 3, -1, 1⟩ : Vector4 ℝ).Transform
        (Matrix4x4.CreatePerspective (Real.pi / 2) 1 1 100)).W = 0 ∧
    ((⟨2, 3, -100, 1⟩ : Vector4 ℝ).Transform
        (Matrix4x4.CreatePerspective (Real.pi / 2) 1 1 100)).Z
      / ((⟨2, 3, -100, 1⟩ : Vector4 ℝ).Transform
        (Matrix4x4.CreatePerspective (Real.pi / 2) 1 1 100)).W = 1 :=
  have h := Vector4.Transform_CreatePerspective_depth (Real.pi / 2) 1 1 100 2 3
    (by norm_num) (by norm_num)
  ⟨h.1, h.2.2.1⟩

/-- Claim C27. `Orthonormalize` preserves handedness: for every matrix `m` whose three
upper-left row vectors are linearly independent, the determinant of the upper-left 3x3 block
of `Orthonormalize(m)` is non-zero and has the sign of the determinant of the upper-left 3x3
block of `m`. -/
theorem Matrix4x4.Orthonormalize_handedness (m : Matrix4x4 ℝ)
    (h : LinearIndependent ℝ (fun i => m.toMatrix3 i)) :
    m.Orthonormalize.toMatrix3.det ≠ 0 ∧
    SignType.sign m.Orthonormalize.toMatrix3.det = SignType.sign m.toMatrix3.det := by
  have hd := Matrix4x4.det_toMatrix3_ne_zero m h
  obtain ⟨p, hp, e⟩ := Matrix4x4.det_Orthonormalize_aux m hd
  rw [e]
  refine ⟨mul_ne_zero hp.ne' hd, ?_⟩
  rw [sign_mul, sign_pos hp, one_mul]

/-- Claim C27 at the matrix with upper-left rows `(1,0,0)`, `(0,1,0)`, `(3,0,4)`. -/
theorem Matrix4x4.Orthonormalize_handedness_witness :
    (⟨1, 0, 0, 0, 0, 1, 0, 0, 3, 0, 4, 0, 0, 0, 0, 1⟩ : Matrix4x4 ℝ).Orthonormalize.toMatrix3.det
        ≠ 0 ∧
    SignType.sign
        (⟨1, 0, 0, 0, 0, 1, 0, 0, 3, 0, 4, 0, 0, 0, 0, 1⟩ : Matrix4x4 ℝ).Orthonormalize.toMatrix3.det
      = SignType.sign
        (⟨1, 0, 0, 0, 0, 1, 0, 0, 3, 0, 4, 0, 0, 0, 0, 1⟩ : Matrix4x4 ℝ).toMatrix3.det := by
  apply Matrix4x4.Orthonormalize_handedness
  rw [Matrix.linearIndependent_rows_iff_isUnit, Matrix.isUnit_iff_isUnit_det, isUnit_iff_ne_zero,
    Matrix4x4.det_toMatrix3]
  norm_num [Vector3.det3]

/-- Claim C28. `Orthonormalize` discards everything outside the 3x3 block: for every input
matrix `m` the result has fourth row `(0,0,0,1)` and `M14 = M24 = M34 = 0`, whatever the
translation row and fourth column of `m` were, and its first row is the first row of `m`
divided by its length. -/
theorem Matrix4x4.Orthonormalize_frame (m : Matrix4x4 ℝ) :
    (m.Orthonormalize.M41 = 0 ∧ m.Orthonormalize.M42 = 0 ∧ m.Orthonormalize.M43 = 0 ∧
      m.Orthonormalize.M44 = 1) ∧
    (m.Orthonormalize.M14 = 0 ∧ m.Orthonormalize.M24 = 0 ∧ m.Orthonormalize.M34 = 0) ∧
    (m.Orthonormalize.M11 = m.M11 / Vector3.Length ⟨m.M11, m.M12, m.M13⟩ ∧
      m.Orthonormalize.M12 = m.M12 / Vector3.Length ⟨m.M11, m.M12, m.M13⟩ ∧
      m.Orthonormalize.M13 = m.M13 / Vector3.Length ⟨m.M11, m.M12, m.M13⟩) := by
  refine ⟨⟨rfl, rfl, rfl, rfl⟩, ⟨rfl, rfl, rfl⟩, ?_, ?_, ?_⟩ <;>
    simp only [Matrix4x4.Orthonormalize, Vector3.Normalize, Vector3.MultiplyFloat, InvSqrt,
      Vector3.Length, Sqrt, mul_one_div]

/-- Claim C29. Away from gimbal lock the Euler extraction undoes the construction: for every
`pitch` in `(-pi/2, pi/2)` with `sin(pitch)` not nearly `1` or `-1`, and every `yaw` and `roll`
in `(-pi, pi]`, `EulerAngles(CreateFromYawPitchRoll(yaw, pitch, roll))` is the vector
`(X = pitch, Y = yaw, Z = roll)`. -/
theorem Matrix4x4.EulerAngles_CreateFromYawPitchRoll (yaw pitch roll : ℝ)
    (hp1 : -(Real.pi / 2) < pitch) (hp2 : pitch < Real.pi / 2)
    (hn1 : NearlyEqual (Real.sin pitch) 1 = false)
    (hn2 : NearlyEqual (Real.sin pitch) (-1) = false)
    (hy1 : -Real.pi < yaw) (hy2 : yaw ≤ Real.pi)
    (hr1 : -Real.pi < roll) (hr2 : roll ≤ Real.pi) :
    (Matrix4x4.CreateFromYawPitchRoll yaw pitch roll).EulerAngles = ⟨pitch, yaw, roll⟩ := by
  have hc : 0 < Real.cos pitch := Real.cos_pos_of_mem_Ioo ⟨hp1, hp2⟩
  have hs1 : Real.sin pitch < 1 := by
    have := Real.sin_lt_sin_of_lt_of_le_pi_div_two hp1.le (le_refl _) hp2
    rwa [Real.sin_pi_div_two] at this
  have hs2 : -1 < Real.sin pitch := by
    have := Real.sin_lt_sin_of_lt_of_le_pi_div_two (le_refl _) hp2.le hp1
    rwa [Real.sin_neg, Real.sin_pi_div_two] at this
  have hA : ASin (Real.sin pitch) = pitch := by
    simp only [ASin, hs1, hs2, if_true, gt_iff_lt]
    exact Real.arcsin_sin hp1.le hp2.le
  have e1 : -(-Real.sin yaw * Real.cos pitch) = Real.cos pitch * Real.sin yaw := by ring
  have e2 : Real.cos yaw * Real.cos pitch = Real.cos pitch * Real.cos yaw := by ring
  have e3 : -(Real.cos pitch * -Real.sin roll) = Real.cos pitch * Real.sin roll := by ring
  simp only [Matrix4x4.EulerAngles, Matrix4x4.CreateFromYawPitchRoll, SinCos, hn1, hn2,
    Bool.false_eq_true, if_false, hA, e1, e2, e3,
    ATan2_sin_cos_of_mem _ _ hc hy1 hy2, ATan2_sin_cos_of_mem _ _ hc hr1 hr2]

/-- Claim C29 at `yaw = pi/3`, `pitch = 0`, `roll = pi/4`. -/
theorem Matrix4x4.EulerAngles_CreateFromYawPitchRoll_witness :
    (Matrix4x4.CreateFromYawPitchRoll (Real.pi / 3) 0 (Real.pi / 4)).EulerAngles
      = ⟨0, Real.pi / 3, Real.pi / 4⟩ :=
  Matrix4x4.EulerAngles_CreateFromYawPitchRoll (Real.pi / 3) 0 (Real.pi / 4)
    (by linarith [Real.pi_pos]) (by linarith [Real.pi_pos])
    (by norm_num [NearlyEqual, NearlyZero, Float.Tolerance])
    (by norm_num [NearlyEqual, NearlyZero, Float.Tolerance])
    (by linarith [Real.pi_pos]) (by linarith [Real.pi_pos])
    (by linarith [Real.pi_pos]) (by linarith [Real.pi_pos])

/-- Claim C30. For every `position != target` and every `up` not parallel to
`position - target`, the matrix `V = CreateView(position, target, up)` moves the camera to the
origin looking down `-Z`: the `Vector3` transform of `position` by `V` is `(0,0,0)` and the
transform of `target` by `V` is `(0, 0, -|position - target|)`. -/
theorem Vector3.Transform_CreateView (position target up : Vector3 ℝ)
    (h : position ≠ target)
    (_hup : up.Cross (position.Subtract target) ≠ ⟨0, 0, 0⟩) :
    position.Transform (Matrix4x4.CreateView position target up) = ⟨0, 0, 0⟩ ∧
    target.Transform (Matrix4x4.CreateView position target up)
      = ⟨0, 0, -(position.Subtract target).Length⟩ := by
  have hL := Vector3.LengthSquared_Subtract_pos h
  have hs := InvSqrt_mul_self hL
  simp only [Vector3.Length, ← hs]
  simp only [Matrix4x4.CreateView, Vector3.Normalize]
  generalize InvSqrt (position.Subtract target).LengthSquared = s
  generalize InvSqrt
    (up.Cross ((position.Subtract target).MultiplyFloat s)).LengthSquared = sx
  generalize InvSqrt
    (((position.Subtract target).MultiplyFloat s).Cross
      ((up.Cross ((position.Subtract target).MultiplyFloat s)).MultiplyFloat sx)).LengthSquared
    = sy
  simp only [Vector3.Transform, Vector3.Cross, Vector3.MultiplyFloat, Vector3.Subtract,
    Vector3.Dot, Vector3.LengthSquared]
  constructor <;> ext <;> simp only [] <;> ring

/-- Claim C30 for a camera at `(0,0,5)` looking at the origin with `up = (0,1,0)`. -/
theorem Vector3.Transform_CreateView_witness :
    (⟨0, 0, 5⟩ : Vector3 ℝ).Transform (Matrix4x4.CreateView ⟨0, 0, 5⟩ ⟨0, 0, 0⟩ ⟨0, 1, 0⟩)
      = ⟨0, 0, 0⟩ ∧
    (⟨0, 0, 0⟩ : Vector3 ℝ).Transform (Matrix4x4.CreateView ⟨0, 0, 5⟩ ⟨0, 0, 0⟩ ⟨0, 1, 0⟩)
      = ⟨0, 0, -((⟨0, 0, 5⟩ : Vector3 ℝ).Subtract ⟨0, 0, 0⟩).Length⟩ :=
  Vector3.Transform_CreateView ⟨0, 0, 5⟩ ⟨0, 0, 0⟩ ⟨0, 1, 0⟩
    (by intro h; have := congrArg Vector3.Z h; norm_num at this)
    (by intro h; have := congrArg Vector3.X h; norm_num [Vector3.Cross, Vector3.Subtract] at this)

/-- Claim C31. For every `position`, every non-zero `forward` and every `up` not parallel to
`forward`, `W = CreateWorld(position, forward, up)` keeps the direction of `forward`:
`W.GetForward()` is `forward` divided by its length, `W.GetTranslation()` is `position`, and
the three upper-left rows of `W` are unit length and pairwise orthogonal. -/
theorem Matrix4x4.CreateWorld_frame (position forward up : Vector3 ℝ)
    (hf : forward ≠ ⟨0, 0, 0⟩) (hup : up.Cross forward ≠ ⟨0, 0, 0⟩) :
    (Matrix4x4.CreateWorld position forward up).GetForward
      = ⟨forward.X / forward.Length, forward.Y / forward.Length, forward.Z / forward.Length⟩ ∧
    (Matrix4x4.CreateWorld position forward up).GetTranslation = position ∧
    (Vector3.LengthSquared ⟨(Matrix4x4.CreateWorld position forward up).M11,
        (Matrix4x4.CreateWorld position forward up).M12,
        (Matrix4x4.CreateWorld position forward up).M13⟩ = 1 ∧
      Vector3.LengthSquared ⟨(Matrix4x4.CreateWorld position forward up).M21,
        (Matrix4x4.CreateWorld position forward up).M22,
        (Matrix4x4.CreateWorld position forward up).M23⟩ = 1 ∧
      Vector3.LengthSquared ⟨(Matrix4x4.CreateWorld position forward up).M31,
        (Matrix4x4.CreateWorld position forward up).M32,
        (Matrix4x4.CreateWorld position forward up).M33⟩ = 1) ∧
    (Vector3.Dot ⟨(Matrix4x4.CreateWorld position forward up).M11,
        (Matrix4x4.CreateWorld position forward up).M12,
        (Matrix4x4.CreateWorld position forward up).M13⟩
        ⟨(Matrix4x4.CreateWorld position forward up).M21,
        (Matrix4x4.CreateWorld position forward up).M22,
        (Matrix4x4.CreateWorld position forward up).M23⟩ = 0 ∧
      Vector3.Dot ⟨(Matrix4x4.CreateWorld position forward up).M11,
        (Matrix4x4.CreateWorld position forward up).M12,
        (Matrix4x4.CreateWorld position forward up).M13⟩
        ⟨(Matrix4x4.CreateWorld position forward up).M31,
        (Matrix4x4.CreateWorld position forward up).M32,
        (Matrix4x4.CreateWorld position forward up).M33⟩ = 0 ∧
      Vector3.Dot ⟨(Matrix4x4.CreateWorld position forward up).M21,
        (Matrix4x4.CreateWorld position forward up).M22,
        (Matrix4x4.CreateWorld position forward up).M23⟩
        ⟨(Matrix4x4.CreateWorld position forward up).M31,
        (Matrix4x4.CreateWorld position forward up).M32,
        (Matrix4x4.CreateWorld position forward up).M33⟩ = 0) := by
  -- the forward vector and the cross product have positive squared length
  have hL : 0 < forward.LengthSquared := by
    rcases Vector3.LengthSquared_pos_or forward with h | ⟨hx, hy, hz⟩
    · exact h
    · exact absurd (Vector3.ext hx hy hz) hf
  have hC : 0 < (up.Cross forward).LengthSquared := by
    rcases Vector3.LengthSquared_pos_or (up.Cross forward) with h | ⟨hx, hy, hz⟩
    · exact h
    · exact absurd (Vector3.ext hx hy hz) hup
  -- zAxis
  have hz1 : forward.Normalize.Negate.LengthSquared = 1 := by
    have := Vector3.LengthSquared_Normalize hL
    simp only [Vector3.Negate, Vector3.LengthSquared] at this ⊢
    linarith
  have hs : 0 < InvSqrt forward.LengthSquared := InvSqrt_pos hL
  have hcz : 0 < (up.Cross forward.Normalize.Negate).LengthSquared := by
    have e : (up.Cross forward.Normalize.Negate).LengthSquared
        = (InvSqrt forward.LengthSquared * InvSqrt forward.LengthSquared)
          * (up.Cross forward).LengthSquared := by
      simp only [Vector3.Normalize, Vector3.Negate, Vector3.MultiplyFloat, Vector3.Cross,
        Vector3.LengthSquared]
      ring
    rw [e]
    positivity
  -- xAxis
  have hx1 := Vector3.LengthSquared_Normalize hcz
  have hxz : forward.Normalize.Negate.Dot (up.Cross forward.Normalize.Negate).Normalize = 0 := by
    simp only [Vector3.Normalize, Vector3.MultiplyFloat, Vector3.Cross, Vector3.Dot]
    ring
  -- yAxis
  have hy0 : (forward.Normalize.Negate.Cross
      (up.Cross forward.Normalize.Negate).Normalize).LengthSquared = 1 := by
    rw [Vector3.LengthSquared_Cross, hz1, hx1, hxz]
    norm_num
  have hy1 := Vector3.LengthSquared_Normalize (by rw [hy0]; exact one_pos)
  refine ⟨?_, rfl, ⟨hx1, hy1, hz1⟩, ?_, ?_, ?_⟩
  · simp only [Matrix4x4.GetForward, Matrix4x4.CreateWorld, Vector3.Negate, Vector3.Normalize,
      Vector3.MultiplyFloat, Vector3.Length, InvSqrt, Sqrt, neg_neg, mul_one_div]
  · simp only [Matrix4x4.CreateWorld]
    generalize forward.Normalize.Negate = z
    generalize (up.Cross z).Normalize = x
    simp only [Vector3.Normalize, Vector3.MultiplyFloat, Vector3.Cross, Vector3.Dot]
    ring
  · simp only [Matrix4x4.CreateWorld]
    generalize forward.Normalize.Negate = z
    simp only [Vector3.Normalize, Vector3.MultiplyFloat, Vector3.Cross, Vector3.Dot]
    ring
  · simp only [Matrix4x4.CreateWorld]
    generalize forward.Normalize.Negate = z
    generalize (up.Cross z).Normalize = x
    simp only [Vector3.Normalize, Vector3.MultiplyFloat, Vector3.Cross, Vector3.Dot]
    ring

/-- Claim C31 for an object at `(1,2,3)` facing `(0,0,-2)` with `up = (0,1,0)`. -/
theorem Matrix4x4.CreateWorld_frame_witness :
    (Matrix4x4.CreateWorld ⟨1, 2, 3⟩ ⟨0, 0, -2⟩ ⟨0, 1, 0⟩).GetTranslation
      = (⟨1, 2, 3⟩ : Vector3 ℝ) :=
  (Matrix4x4.CreateWorld_frame ⟨1, 2, 3⟩ ⟨0, 0, -2⟩ ⟨0, 1, 0⟩
    (by intro h; have := congrArg Vector3.Z h; norm_num at this)
    (by intro h; have := congrArg Vector3.X h; norm_num [Vector3.Cross] at this)).2.1

/-- Claim C32. `Slerp` keeps unit length: for all unit quaternions `q1`, `q2` whose dot
product is not nearly `1` in absolute value and every weight `t`,
`LengthSquared(Slerp(q1, q2, t))` is `1`. -/
theorem Quaternion.LengthSquared_Slerp (q1 q2 : Quaternion ℝ) (t : ℝ)
    (h1 : q1.LengthSquared = 1) (h2 : q2.LengthSquared = 1)
    (hne : NearlyEqual (Abs (q1.Dot q2)) 1 = false) :
    (Quaternion.Slerp q1 q2 t).LengthSquared = 1 := by
  have hb := Quaternion.abs_Dot_le q1 q2 h1 h2 hne
  rw [abs_le] at hb
  have hlo : -1 < q1.Dot q2 := by linarith [hb.1]
  have hhi : q1.Dot q2 < 1 := by linarith [hb.2]
  have hsq := one_sub_sq_le_arccos_sq hlo hhi
  have hz : NearlyZero (Real.arccos (q1.Dot q2)) = false := by
    rw [NearlyZero_eq_false_iff]
    unfold Float.Tolerance
    nlinarith [hb.1, hb.2]
  have hs := (sin_arccos_pos hlo hhi).ne'
  have hc := Real.cos_arccos hlo.le hhi.le
  rw [Quaternion.Slerp_of_arccos q1 q2 t hlo hhi hz, Quaternion.LengthSquared_combination, h1, h2]
  generalize Real.arccos (q1.Dot q2) = θ at hs hc ⊢
  rw [← hc, Real.sin_sub]
  have hθ := Real.sin_sq_add_cos_sq θ
  have ha := Real.sin_sq_add_cos_sq (t * θ)
  field_simp
  linear_combination (Real.sin θ ^ 2) * ha - (Real.sin (t * θ) ^ 2) * hθ

/-- Claim C32 at the identity, the half turn about X and weight `1/3`. -/
theorem Quaternion.LengthSquared_Slerp_witness :
    (Quaternion.Slerp (⟨0, 0, 0, 1⟩ : Quaternion ℝ) ⟨1, 0, 0, 0⟩ (1 / 3)).LengthSquared = 1 :=
  Quaternion.LengthSquared_Slerp ⟨0, 0, 0, 1⟩ ⟨1, 0, 0, 0⟩ (1 / 3)
    (by norm_num [Quaternion.LengthSquared]) (by norm_num [Quaternion.LengthSquared])
    (by norm_num [NearlyEqual, NearlyZero, Abs, Quaternion.Dot, Float.Tolerance])

/-- Claim C33. Quaternion `Multiply` is norm-multiplicative: for all quaternions `q1`, `q2`,
`LengthSquared(Multiply(q1, q2)) = LengthSquared(q1) * LengthSquared(q2)`; hence the product
of two unit quaternions is a unit quaternion. -/
theorem Quaternion.LengthSquared_Multiply (q1 q2 : Quaternion F) :
    (q1.Multiply q2).LengthSquared = q1.LengthSquared * q2.LengthSquared ∧
    (q1.LengthSquared = 1 → q2.LengthSquared = 1 → (q1.Multiply q2).LengthSquared = 1) := by
  refine ⟨Quaternion.LengthSquared_Multiply_aux q1 q2, fun h1 h2 => ?_⟩
  rw [Quaternion.LengthSquared_Multiply_aux, h1, h2, mul_one]

/-- Claim C33 at the unit quaternions `(3/5, 0, 4/5, 0)` and `(0, 5/13, 0, 12/13)`. -/
theorem Quaternion.LengthSquared_Multiply_witness :
    ((⟨3 / 5, 0, 4 / 5, 0⟩ : Quaternion ℝ).Multiply ⟨0, 5 / 13, 0, 12 / 13⟩).LengthSquared = 1 :=
  (Quaternion.LengthSquared_Multiply _ _).2 (by norm_num [Quaternion.LengthSquared])
    (by norm_num [Quaternion.LengthSquared])

/-- Claim C34 at inputs where the code departs from it: the unit squares at `(0,0)` and
`(1,0)` share only an edge, the unit squares at `(0,0)` and `(1,1)` only a corner, and
`Intersects` returns `true` for both pairs; `Intersect` of the first pair is the zero-width
rectangle `(1, 0, 0, 1)`. -/
theorem Rect.Intersects_touching :
    (⟨0, 0, 1, 1⟩ : Rect ℝ).Intersects ⟨1, 0, 1, 1⟩ = true ∧
    (⟨0, 0, 1, 1⟩ : Rect ℝ).Intersects ⟨1, 1, 1, 1⟩ = true ∧
    (⟨0, 0, 1, 1⟩ : Rect ℝ).Intersect ⟨1, 0, 1, 1⟩ = ⟨1, 0, 0, 1⟩ := by
  refine ⟨?_, ?_, ?_⟩
  · norm_num [Rect.Intersects]
  · norm_num [Rect.Intersects]
  · norm_num [Rect.Intersect, Rect.Intersects, Max, Min]

/-- Claim C35 at an input where the code departs from it: for the unit quaternion
`(1,0,0,0)` (half turn about X) the `Vector2` transform of `(0,1)` is `(0,1)`, while the
`Vector3` transform of `(0,1,0)` is `(0,-1,0)`. -/
theorem Vector2.TransformQuaternion_half_turn :
    (⟨1, 0, 0, 0⟩ : Quaternion ℝ).LengthSquared = 1 ∧
    (⟨0, 1⟩ : Vector2 ℝ).TransformQuaternion ⟨1, 0, 0, 0⟩ = ⟨0, 1⟩ ∧
    (⟨0, 1, 0⟩ : Vector3 ℝ).TransformQuaternion ⟨1, 0, 0, 0⟩ = ⟨0, -1, 0⟩ := by
  refine ⟨by norm_num [Quaternion.LengthSquared], ?_, ?_⟩
  · simp only [Vector2.TransformQuaternion]
    ext <;> norm_num
  · simp only [Vector3.TransformQuaternion]
    ext <;> norm_num

/-- Claim C36. Rotating by a quaternion and rotating by its matrix agree: for every
quaternion `q`, unit or not, and every `Vector3` `v`, `Transform(v, q)` (the double cross
product expansion) is `Transform(v, Matrix4x4::CreateFromQuaternion(q))`. -/
theorem Vector3.TransformQuaternion_eq_Transform (q : Quaternion F) (v : Vector3 F) :
    v.TransformQuaternion q = v.Transform (Matrix4x4.CreateFromQuaternion q) := by
  simp only [Vector3.TransformQuaternion, Vector3.Transform, Matrix4x4.CreateFromQuaternion]
  ext <;> simp only [] <;> ring

/-- Claim C37. For every unit quaternion `q`, `CreateFromQuaternion(q)` is a rotation matrix:
its upper-left 3x3 block `R` satisfies `R * transpose(R) = I`, `Determinant` of the whole
matrix is `1`, and its fourth row and fourth column are `(0,0,0,1)`. -/
theorem Matrix4x4.CreateFromQuaternion_rotation (q : Quaternion F) (h : q.LengthSquared = 1) :
    (Matrix4x4.CreateFromQuaternion q).toMatrix3
        * (Matrix4x4.CreateFromQuaternion q).toMatrix3.transpose = 1 ∧
    (Matrix4x4.CreateFromQuaternion q).Determinant = 1 ∧
    ((Matrix4x4.CreateFromQuaternion q).M41 = 0 ∧ (Matrix4x4.CreateFromQuaternion q).M42 = 0 ∧
      (Matrix4x4.CreateFromQuaternion q).M43 = 0 ∧ (Matrix4x4.CreateFromQuaternion q).M44 = 1) ∧
    ((Matrix4x4.CreateFromQuaternion q).M14 = 0 ∧ (Matrix4x4.CreateFromQuaternion q).M24 = 0 ∧
      (Matrix4x4.CreateFromQuaternion q).M34 = 0) := by
  obtain ⟨n1, n2, n3⟩ := Matrix4x4.CreateFromQuaternion_row_norms_aux q h
  obtain ⟨d12, d13, d23⟩ := Matrix4x4.CreateFromQuaternion_row_dots q h
  refine ⟨?_, ?_, ⟨rfl, rfl, rfl, rfl⟩, ⟨rfl, rfl, rfl⟩⟩
  · generalize Matrix4x4.CreateFromQuaternion q = R at n1 n2 n3 d12 d13 d23 ⊢
    ext i j
    rw [Matrix.mul_apply]
    simp only [Matrix.transpose_apply, Fin.sum_univ_three]
    fin_cases i <;> fin_cases j <;>
      simp [Matrix4x4.toMatrix3, Matrix.one_apply] <;>
      linarith
  · obtain ⟨x, y, z, w⟩ := q
    simp only [Quaternion.LengthSquared] at h
    simp only [Matrix4x4.Determinant, Matrix4x4.CreateFromQuaternion]
    linear_combination (4 * (x * x + y * y + z * z)) * h

/-- Claim C37 at the unit quaternion `(3/5, 0, 4/5, 0)`. -/
theorem Matrix4x4.CreateFromQuaternion_rotation_witness :
    (Matrix4x4.CreateFromQuaternion (⟨3 / 5, 0, 4 / 5, 0⟩ : Quaternion ℝ)).toMatrix3
        * (Matrix4x4.CreateFromQuaternion (⟨3 / 5, 0, 4 / 5, 0⟩ : Quaternion ℝ)).toMatrix3.transpose
        = 1 ∧
    (Matrix4x4.CreateFromQuaternion (⟨3 / 5, 0, 4 / 5, 0⟩ : Quaternion ℝ)).Determinant = 1 :=
  have h := Matrix4x4.CreateFromQuaternion_rotation (⟨3 / 5, 0, 4 / 5, 0⟩ : Quaternion ℝ)
    (by norm_num [Quaternion.LengthSquared])
  ⟨h.1, h.2.1⟩

/-- Claim C38 at the inputs where the code departs from it: `ASin(1)` is `0` and not
`arcsin(1) = pi/2`, `ACos(1)` is `pi/2` and not `arccos(1) = 0`, `ASin(-1)` is `pi` and not
`-pi/2`, `ACos(-1)` is `-pi/2` and not `pi`. -/
theorem ASin_ACos_clamp :
    (ASin 1 = 0 ∧ Real.arcsin 1 = Real.pi / 2) ∧
    (ACos 1 = Real.pi / 2 ∧ Real.arccos 1 = 0) ∧
    (ASin (-1) = Real.pi ∧ Real.arcsin (-1) = -(Real.pi / 2)) ∧
    (ACos (-1) = -(Real.pi / 2) ∧ Real.arccos (-1) = Real.pi) ∧
    ASin 1 ≠ Real.arcsin 1 := by
  have h1 : ASin 1 = 0 := by simp [ASin]
  refine ⟨⟨h1, Real.arcsin_one⟩, ⟨by simp [ACos, Trig.PiOverTwo], Real.arccos_one⟩,
    ⟨by simp [ASin, Trig.Pi], Real.arcsin_neg_one⟩,
    ⟨by simp [ACos, Trig.PiOverTwo], Real.arccos_neg_one⟩, ?_⟩
  rw [h1, Real.arcsin_one]
  have := Real.pi_pos
  linarith

/-- Claim C39. The quaternion and matrix yaw-pitch-roll constructors describe the same
rotation: for all `yaw`, `pitch`, `roll`,
`Matrix4x4::CreateFromQuaternion(Quaternion::CreateFromYawPitchRoll(yaw, pitch, roll))` is
`Matrix4x4::CreateFromYawPitchRoll(yaw, pitch, roll)`. -/
theorem Matrix4x4.CreateFromQuaternion_CreateFromYawPitchRoll (yaw pitch roll : ℝ) :
    Matrix4x4.CreateFromQuaternion (Quaternion.CreateFromYawPitchRoll yaw pitch roll)
      = Matrix4x4.CreateFromYawPitchRoll yaw pitch roll := by
  obtain ⟨hX, -, -⟩ := Quaternion.LengthSquared_CreateRotation pitch
  obtain ⟨-, hY, -⟩ := Quaternion.LengthSquared_CreateRotation yaw
  obtain ⟨-, -, hZ⟩ := Quaternion.LengthSquared_CreateRotation roll
  have hXY : ((Quaternion.CreateRotationX pitch).Multiply
      (Quaternion.CreateRotationY yaw)).LengthSquared = 1 := by
    rw [Quaternion.LengthSquared_Multiply_aux, hX, hY, mul_one]
  rw [Quaternion.CreateFromYawPitchRoll_unrolled,
    Matrix4x4.CreateFromQuaternion_Multiply _ _ hZ hXY,
    Matrix4x4.CreateFromQuaternion_Multiply _ _ hX hY,
    (Matrix4x4.CreateFromQuaternion_CreateRotation pitch).1,
    (Matrix4x4.CreateFromQuaternion_CreateRotation yaw).2.1,
    (Matrix4x4.CreateFromQuaternion_CreateRotation roll).2.2,
    Matrix4x4.CreateFromYawPitchRoll_product]

/-- Claim C40. The matrix axis-angle constructor matches the quaternion one: for every unit
axis `a` and every angle `theta`, `Matrix4x4::CreateFromAxisAngle(a, theta)` is
`Matrix4x4::CreateFromQuaternion(Quaternion::CreateFromAxisAngle(a, theta))`. -/
theorem Matrix4x4.CreateFromAxisAngle_eq_CreateFromQuaternion (a : Vector3 ℝ) (theta : ℝ)
    (ha : a.LengthSquared = 1) :
    Matrix4x4.CreateFromAxisAngle a theta
      = Matrix4x4.CreateFromQuaternion (Quaternion.CreateFromAxisAngle a theta) := by
  simp only [Vector3.LengthSquared] at ha
  simp only [Matrix4x4.CreateFromAxisAngle, Matrix4x4.CreateFromQuaternion,
    Quaternion.CreateFromAxisAngle, SinCos, sin_eq_half_angle theta, cos_eq_half_angle theta]
  ext <;> simp only [] <;>
    first
      | ring1
      | linear_combination (2 * Real.sin (theta * 0.5) ^ 2) * ha

/-- Claim C40 at the unit axis `(3/5, 0, 4/5)` and angle `1`. -/
theorem Matrix4x4.CreateFromAxisAngle_eq_CreateFromQuaternion_witness :
    Matrix4x4.CreateFromAxisAngle ⟨3 / 5, 0, 4 / 5⟩ 1
      = Matrix4x4.CreateFromQuaternion (Quaternion.CreateFromAxisAngle ⟨3 / 5, 0, 4 / 5⟩ 1) :=
  Matrix4x4.CreateFromAxisAngle_eq_CreateFromQuaternion _ _ (by norm_num [Vector3.LengthSquared])

end Claims

end Phx.Math
